import Mathlib

/-!
Verification of the grid-trading backtest core of `app.py`
(`backtest_single_etf`, its inner `setup_grid`, and `backtest_portfolio`).

Prices and monetary amounts are embedded as exact rationals `ℚ`; Python
floats are modelled as exact arithmetic (no claim below rests on binary
rounding).  The strings `f'{x:.2f}'`/`f'{x:.4f}'` that `app.py` stores in
trade records and later re-parses with `float(...)` are modelled as the
exact values (counterexamples are chosen where the formatted decimal is
exact, so Python agrees with the model at those inputs).  Share counts are
Python ints, embedded as `ℤ`.  `ℚ` has no NaN, so the `pd.isna` branches
that are unreachable for supplied finite parameters are noted in comments
at their place in the translation.
-/

namespace Dajitui

/-- Python `int(x)` on a float/rational: truncation toward zero. -/
def pyInt (q : ℚ) : ℤ := if 0 ≤ q then ⌊q⌋ else ⌈q⌉

/-- Python `a // b` on ints: floor division. -/
def pyFloorDiv (a b : ℤ) : ℤ := Int.fdiv a b

/-- Python `list.sort()`: stable ascending sort (insertion sort computes the
same list as any stable ascending sort). -/
def pySort (l : List ℚ) : List ℚ := List.insertionSort (· ≤ ·) l

/-- `dict.get(k, 0)` over an association list whose most recent binding is
first (Python dict assignment `d[k] = v` is modelled by consing `(k, v)`). -/
def dictGet (d : List (ℕ × ℚ)) (k : ℕ) : ℚ :=
  ((d.find? (fun kv => kv.1 = k)).map (·.2)).getD 0

/-- One trade record, the fields of the dicts appended to `trades` in
`backtest_single_etf` that the verified claims read (`date`, `type`,
`price`, `quantity`, `amount`, `profit`).  `ttype` is `"买入"`, `"卖出"` or
`"卖出(平仓)"` exactly as in the source. -/
structure Trade where
  date : ℕ
  ttype : String
  price : ℚ
  quantity : ℤ
  amount : ℚ
  profit : ℚ
  deriving DecidableEq, Repr

/-- One point of the equity curve: `total_equity`, `invested_capital`,
`profit_values` entries for one date (app.py lines 2039-2042, 2188-2191). -/
structure EquityPoint where
  date : ℕ
  equity : ℚ
  invested : ℚ
  profit : ℚ
  deriving DecidableEq, Repr

/-- One raw row of the price series handed to the backtest after the
caller's date slicing: a date key, its calendar month, and the close price
(`none` models a NaN close removed by `dropna`). -/
structure RawDay where
  date : ℕ
  month : ℕ
  close : Option ℚ
  deriving DecidableEq, Repr

/-- A surviving trading day after `df.dropna(subset=['close'])`. -/
structure Day where
  date : ℕ
  month : ℕ
  close : ℚ
  deriving DecidableEq, Repr

/-- `df.dropna(subset=['close'])` (app.py lines 1765, 1777). -/
def dropna (rows : List RawDay) : List Day :=
  rows.filterMap (fun r => r.close.map (fun c => ⟨r.date, r.month, c⟩))

/-- The caller-supplied backtest parameters of `backtest_single_etf`
(`grid_levels`, `grid_type`, and the optional overrides `volatility`,
`grid_spacing`, `grid_range_upper`, `grid_range_lower`). -/
structure BtParams where
  grid_levels : ℕ
  grid_type : String
  volatility : Option ℚ
  grid_spacing : Option ℚ
  grid_range_upper : Option ℚ
  grid_range_lower : Option ℚ
  deriving Repr

/-- Result of the external range estimator `calculate_grid_range` at a
reset date: `fail` models an exception, `nanv` models NaN `H_val`/`L_val`,
`vals hi lo` models finite values.  The estimator itself is external to the
core (spec §1, §6). -/
inductive RangeEst where
  | fail : RangeEst
  | nanv : RangeEst
  | vals : ℚ → ℚ → RangeEst
  deriving Repr

/-- Oracles for the two external estimators and for the float power used by
the geometric grid.  `volEst i = none` models an exception or NaN from
`calculate_volatility` on day `i` (both yield the default 0.2 in the
source).  `geoRatio u l` stands for the Python float
`(u / l) ** (1 / (grid_levels - 1))`, an irrational number in general;
theorems about the geometric geometry constrain it by its defining
equation. -/
structure Oracles where
  volEst : ℕ → Option ℚ
  rangeEst : ℕ → RangeEst
  geoRatio : ℚ → ℚ → ℚ

/-- Volatility resolution in `setup_grid` (app.py lines 1840-1860):
the supplied override is used unchecked; otherwise the estimator value,
with 0.2 substituted for NaN or an exception. -/
def resolveVolatility (P : BtParams) (O : Oracles) (dayIdx : ℕ) : ℚ :=
  match P.volatility with
  | some v => v
  | none => (O.volEst dayIdx).getD (1/5)

/-- Grid-spacing resolution (app.py lines 1862-1871): the supplied override
is used unchecked; otherwise `volatility / 8`, replaced by 0.025 when NaN
or non-positive (NaN is unrepresentable in `ℚ`; the `≤ 0` test remains). -/
def resolveSpacing (P : BtParams) (dayVol : ℚ) : ℚ :=
  match P.grid_spacing with
  | some s => s
  | none =>
      let s := dayVol / 8
      if s ≤ 0 then 1/40 else s

/-- Bound resolution (app.py lines 1873-1901): both supplied bounds are
used as given; if either is missing the estimator is consulted, with
`(1.3·p, 0.7·p)` substituted for NaN values and `(1.3·p, 0.6·p)` for an
exception. -/
def resolveBounds (P : BtParams) (O : Oracles) (dayIdx : ℕ) (p : ℚ) : ℚ × ℚ :=
  match P.grid_range_upper, P.grid_range_lower with
  | some u, some l => (u, l)
  | _, _ =>
      match O.rangeEst dayIdx with
      | RangeEst.vals hi lo => (hi, lo)
      | RangeEst.nanv => (p * (13/10), p * (7/10))
      | RangeEst.fail => (p * (13/10), p * (3/5))

/-- Bound widening (app.py lines 1903-1907): if the current price is at or
above the upper limit it becomes `price·1.1`; if at or below the lower
limit, the lower limit becomes `price·0.9`.  The two tests are independent
and both read the unmodified limits. -/
def widenBounds (p u l : ℚ) : ℚ × ℚ :=
  (if p ≥ u then p * (11/10) else u, if p ≤ l then p * (9/10) else l)

/-- The substitute arithmetic grid between `0.7·price` and `1.3·price`
used when a generated grid contains NaN (app.py lines 1946-1948). -/
def fallbackGrid (p : ℚ) (n : ℕ) : List ℚ :=
  let step := (p * (13/10) - p * (7/10)) / ((n : ℚ) - 1)
  (List.range n).map (fun (i : ℕ) => p * (7/10) + (i : ℚ) * step)

/-- The `while len < N` extension of the volatility grid (app.py lines
1935-1937): append `last·(1+s)` until the level count is reached.  Dead for
the construction in the source (which always yields `N` or `N+1` levels)
but translated for faithfulness. -/
def appendSteps (s : ℚ) (gp : List ℚ) : ℕ → List ℚ
  | 0 => gp
  | k + 1 =>
      let gp := appendSteps s gp k
      gp ++ [(gp.getLast?.getD 0) * (1 + s)]

/-- The centre-out level construction of the volatility branch (app.py
lines 1927-1930): `[mid]`, then for `i = 1..half` append
`mid·(1+i·s)` at the end and insert `mid·(1-i·s)` in front. -/
def volatilityGridRaw (mid s : ℚ) (half : ℕ) : List ℚ :=
  ((List.range half).reverse.map
    (fun (j : ℕ) => mid * (1 - ((j : ℚ) + 1) * s))) ++ [mid] ++
  (List.range half).map (fun (j : ℕ) => mid * (1 + ((j : ℚ) + 1) * s))

/-- The volatility-centred grid (app.py lines 1921-1939): centre-out
construction around the bounds' midpoint with `half = grid_levels // 2`,
popped down to `grid_levels` entries (`List.take`, since `pop` removes the
last element), then the dead `while len < N` extension. -/
def volatilityGrid (n : ℕ) (u l s : ℚ) : List ℚ :=
  let mid := (u + l) / 2
  let gp := volatilityGridRaw mid s (n / 2)
  -- while len(grid_prices) > grid_levels: grid_prices.pop()
  let gp := gp.take n
  -- while len(grid_prices) < grid_levels: append grid_prices[-1]*(1+s)
  appendSteps s gp (n - gp.length)

/-- Level generation for the three geometries (app.py lines 1909-1948):
`arithmetic`, `geometric`, and — for **any other** `grid_type` string —
the volatility-centred construction (`else` branch), followed by
`grid_prices.sort()`.  The NaN-to-fallback test after the sort is
unrepresentable over `ℚ` (no grid value can be NaN here) and is translated
as a vacuous test against `fallbackGrid`. -/
def gridPricesCore (grid_type : String) (n : ℕ) (u l spacing ratio p : ℚ) :
    List ℚ :=
  let gp :=
    if grid_type = "arithmetic" then
      let step := (u - l) / ((n : ℚ) - 1)
      (List.range n).map (fun (i : ℕ) => l + (i : ℚ) * step)
    else if grid_type = "geometric" then
      (List.range n).map (fun (i : ℕ) => l * ratio ^ i)
    else
      volatilityGrid n u l spacing
  let gp := pySort gp
  if gp.any (fun _ => false) then fallbackGrid p n else gp

/-- Per-level share allocation (app.py lines 1955-1971): weight
`(level+1)/total_weight`, capital `remaining·weight`, lot-floored by
`int(capital/price/100)*100` and floored at one lot by `max(100, ·)`. -/
def gridTradeSharesCalc (n : ℕ) (remaining : ℚ) (gp : List ℚ) : List ℤ :=
  let totalWeight : ℚ := ((List.range n).map (fun (i : ℕ) => (i : ℚ) + 1)).sum
  (List.range n).map (fun (level : ℕ) =>
    let weight := ((level : ℚ) + 1) / totalWeight
    let gridCapital := remaining * weight
    let gridPrice := gp.getD level 0
    max 100 (pyInt (gridCapital / gridPrice / 100) * 100))

/-- Locate the grid level of a price (app.py lines 1973-1980 and
2060-2067): the first level with `price ≤ level`, else level 0, overridden
to the top level when the price exceeds the last level. -/
def findGrid (gp : List ℚ) (n : ℕ) (p : ℚ) : ℕ :=
  let base :=
    match (List.range n).find? (fun i => decide (p ≤ gp.getD i 0)) with
    | some i => i
    | none => 0
  if p > gp.getD (n - 1) 0 then n - 1 else base

/-- Output of one `setup_grid` call: the nonlocal variables it overwrites
(`grid_prices`, `grid_buy_prices = {}`, `grid_trade_shares`) and its return
value `current_grid`. -/
structure GridResult where
  gridPrices : List ℚ
  gridBuyPrices : List (ℕ × ℚ)
  gridTradeShares : List ℤ
  currentGrid : ℕ
  deriving Repr

/-- The inner `setup_grid(current_date, current_price, remaining_capital)`
of `backtest_single_etf` (app.py lines 1837-1982), with the two external
estimators and the float `**` supplied as oracles. -/
def setup_grid (P : BtParams) (O : Oracles) (dayIdx : ℕ)
    (current_price remaining_capital : ℚ) : GridResult :=
  let dayVol := resolveVolatility P O dayIdx
  let spacing := resolveSpacing P dayVol
  let (u0, l0) := resolveBounds P O dayIdx current_price
  let (u, l) := widenBounds current_price u0 l0
  let gp := gridPricesCore P.grid_type P.grid_levels u l spacing
    (O.geoRatio u l) current_price
  -- grid_states = [False]*grid_levels (written, never read); grid_buy_prices = {}
  let shares := gridTradeSharesCalc P.grid_levels remaining_capital gp
  { gridPrices := gp
    gridBuyPrices := []
    gridTradeShares := shares
    currentGrid := findGrid gp P.grid_levels current_price }

/-- The mutable locals of the daily loop of `backtest_single_etf`:
cash, share position, trade log, the nonlocal grid variables, the previous
grid level, the month of the last reset, the trading days since the last
reset, the three counters and the equity curve accumulators. -/
structure SimState where
  cash : ℚ
  position : ℤ
  trades : List Trade
  gridPrices : List ℚ
  gridBuyPrices : List (ℕ × ℚ)
  gridTradeShares : List ℤ
  prevGrid : ℕ
  currentMonth : ℕ
  daysSinceReset : ℕ
  buyCount : ℕ
  sellCount : ℕ
  winCount : ℕ
  curve : List EquityPoint
  deriving Repr

/-- Average buy cost over the buy trades recorded so far (app.py lines
2102-2108 and 2222-2228): total buy amount over total buy quantity, 0 when
there are no buys or a zero total quantity. -/
def avgBuyCost (trades : List Trade) : ℚ :=
  let buyTrades := trades.filter (fun t => t.ttype = "买入")
  if buyTrades.isEmpty then 0
  else
    let totalBuyAmount := (buyTrades.map (·.amount)).sum
    let totalBuyQuantity := (buyTrades.map (·.quantity)).sum
    if totalBuyQuantity > 0 then totalBuyAmount / (totalBuyQuantity : ℚ)
    else 0

/-- Realized profit of one sale (app.py lines 2096-2114): the recorded
grid buy price when positive — uncapped — otherwise the average-cost
fallback capped at 20% of the sale amount.  The same expression with
`grid_buy_price = 0` is the close-out profit of lines 2232-2241. -/
def sellProfit (gridBuyPrice : ℚ) (trades : List Trade) (price : ℚ)
    (sellQuantity : ℤ) : ℚ :=
  if gridBuyPrice > 0 then (price - gridBuyPrice) * (sellQuantity : ℚ)
  else
    let avgCost := avgBuyCost trades
    let tradeProfit := (price - avgCost) * (sellQuantity : ℚ)
    let maxReasonableProfit := ((sellQuantity : ℚ) * price) * (1/5)
    if tradeProfit > maxReasonableProfit then maxReasonableProfit
    else tradeProfit

/-- One iteration of the upward-crossing sell loop (app.py lines
2076-2132) at level `grid`. -/
def sellLevelStep (date : ℕ) (price : ℚ) (s : SimState) (grid : ℕ) :
    SimState :=
  if s.position > 0 then
    let sellQuantity := min s.position (s.gridTradeShares.getD grid 0)
    if sellQuantity > 0 then
      let gridBuyPrice := dictGet s.gridBuyPrices grid
      let saleAmount := (sellQuantity : ℚ) * price
      let tradeProfit := sellProfit gridBuyPrice s.trades price sellQuantity
      { s with
        cash := s.cash + saleAmount
        position := s.position - sellQuantity
        trades := s.trades ++
          [⟨date, "卖出", price, sellQuantity, saleAmount, tradeProfit⟩]
        sellCount := s.sellCount + 1
        winCount := s.winCount + 1 }
    else s
  else s

/-- The insufficient-cash sizing reduction of a planned buy (app.py lines
2141-2148): when cash cannot cover the plan, take the lot-floored
affordable quantity, but never below `max(plan // 3, 100)`. -/
def adjustBuyQuantity (cash price : ℚ) (planned : ℤ) : ℤ :=
  if cash < (planned : ℚ) * price then
    let minBuy := max (pyFloorDiv planned 3) 100
    let affordable := min (pyInt (cash / price / 100) * 100) planned
    max minBuy affordable
  else planned

/-- One iteration of the downward-crossing buy loop (app.py lines
2137-2178) at loop index `grid` (the traded level is `grid - 1`): the
possibly reduced order executes only when cash covers it. -/
def buyLevelStep (date : ℕ) (price : ℚ) (s : SimState) (grid : ℕ) :
    SimState :=
  let planned := s.gridTradeShares.getD (grid - 1) 0
  let buyQuantity := adjustBuyQuantity s.cash price planned
  let cost := (buyQuantity : ℚ) * price
  if s.cash ≥ cost ∧ buyQuantity > 0 then
    { s with
      cash := s.cash - cost
      position := s.position + buyQuantity
      gridBuyPrices := (grid - 1, price) :: s.gridBuyPrices
      trades := s.trades ++
        [⟨date, "买入", price, buyQuantity, cost, 0⟩]
      buyCount := s.buyCount + 1 }
  else s

/-- Python `range(a, b)` (ascending, excludes `b`). -/
def pyRange (a b : ℕ) : List ℕ := (List.range (b - a)).map (a + ·)

/-- Python `range(a, b, -1)` (descending, excludes `b`). -/
def pyRangeDown (a b : ℕ) : List ℕ := (List.range (a - b)).map (a - ·)

/-- Overwrite the state's grid variables with a fresh `setup_grid` result
(the nonlocal assignments of app.py lines 1910, 1952-1953, 1958) and record
the returned level as `prev_grid`, the reset month and a zeroed reset
counter (lines 2056-2058). -/
def applyReset (s : SimState) (g : GridResult) (month : ℕ) : SimState :=
  { s with
    gridPrices := g.gridPrices
    gridBuyPrices := g.gridBuyPrices
    gridTradeShares := g.gridTradeShares
    prevGrid := g.currentGrid
    currentMonth := month
    daysSinceReset := 0 }

/-- Stage 1 of the daily loop (app.py lines 2051-2058): bump the
days-since-reset counter, then rebuild the grid on a calendar-month change
or after 30 trading days. -/
def bumpAndReset (P : BtParams) (O : Oracles) (idx : ℕ) (month : ℕ)
    (price : ℚ) (s : SimState) : SimState :=
  let s := { s with daysSinceReset := s.daysSinceReset + 1 }
  if month ≠ s.currentMonth ∨ s.daysSinceReset ≥ 30 then
    applyReset s (setup_grid P O idx price s.cash) month
  else s

/-- Stage 2 of the daily loop (app.py lines 2060-2181): locate the day's
level and, on a crossing, trade the crossed levels — ascending sells on a
rise, descending buys on a fall — then record the level as `prev_grid`. -/
def tradeCrossings (date : ℕ) (price : ℚ) (n : ℕ) (s : SimState) :
    SimState :=
  let currentGrid := findGrid s.gridPrices n price
  if currentGrid ≠ s.prevGrid then
    let s :=
      if currentGrid > s.prevGrid then
        (pyRange (s.prevGrid + 1) (currentGrid + 1)).foldl
          (sellLevelStep date price) s
      else
        (pyRangeDown s.prevGrid currentGrid).foldl
          (buyLevelStep date price) s
    { s with prevGrid := currentGrid }
  else s

/-- Stage 3 of the daily loop (app.py lines 2183-2191, also lines
2033-2042 for day one): append the day's equity point. -/
def appendEquityPoint (initialCapital : ℚ) (date : ℕ) (price : ℚ)
    (s : SimState) : SimState :=
  let equity := s.cash + (s.position : ℚ) * price
  { s with curve := s.curve ++
      [⟨date, equity, initialCapital - s.cash, equity - initialCapital⟩] }

/-- One iteration of the daily loop (app.py lines 2048-2191) for the day
at series index `day.1`. -/
def dayStep (P : BtParams) (O : Oracles) (initialCapital : ℚ)
    (s : SimState) (day : ℕ × Day) : SimState :=
  appendEquityPoint initialCapital day.2.date day.2.close
    (tradeCrossings day.2.date day.2.close P.grid_levels
      (bumpAndReset P O day.1 day.2.month day.2.close s))

/-- The first-day initialization (app.py lines 1984-2042): build the
initial grid from half the capital, size the day-one position from the
price's relative position in the grid (clamped to the 30%-90% band),
lot-floor it, execute it when positive, and record the first equity
point. -/
def initFirstDay (P : BtParams) (O : Oracles) (initialCapital : ℚ)
    (d : Day) : SimState :=
  let cash := initialCapital
  let initialInvestment := initialCapital - initialCapital * (1/2)
  let g := setup_grid P O 0 d.close initialInvestment
  let gp := g.gridPrices
  let pricePosition :=
    if gp.length > 1 then
      max 0 (min 1 ((d.close - gp.getD 0 0) /
        (gp.getD (gp.length - 1) 0 - gp.getD 0 0)))
    else 0
  let positionRatio := max (3/10) (min (9/10) (1 - pricePosition))
  let initialBuyAmount := initialInvestment * positionRatio
  let buyQuantity := pyInt (initialBuyAmount / d.close / 100) * 100
  let s : SimState :=
    { cash := cash, position := 0, trades := [], gridPrices := gp
      gridBuyPrices := g.gridBuyPrices, gridTradeShares := g.gridTradeShares
      prevGrid := g.currentGrid, currentMonth := d.month, daysSinceReset := 0
      buyCount := 0, sellCount := 0, winCount := 0, curve := [] }
  let s :=
    if buyQuantity > 0 then
      let cost := (buyQuantity : ℚ) * d.close
      { s with
        cash := s.cash - cost
        position := s.position + buyQuantity
        trades := s.trades ++ [⟨d.date, "买入", d.close, buyQuantity, cost, 0⟩]
        buyCount := s.buyCount + 1 }
    else s
  appendEquityPoint initialCapital d.date d.close s

/-- The end-of-backtest forced close-out (app.py lines 2214-2269): when a
position remains, sell it all at the last data price with average-cost
profit capped at 20% of the sale amount, record a `"卖出(平仓)"` trade,
and overwrite the last equity point with the all-cash values. -/
def closeOut (initialCapital : ℚ) (lastDate : ℕ) (finalPrice : ℚ)
    (s : SimState) : SimState :=
  if s.position > 0 then
    let saleAmount := (s.position : ℚ) * finalPrice
    let cash := s.cash + saleAmount
    let tradeProfit := sellProfit 0 s.trades finalPrice s.position
    { s with
      cash := cash
      trades := s.trades ++
        [⟨lastDate, "卖出(平仓)", finalPrice, s.position, saleAmount,
          tradeProfit⟩]
      sellCount := s.sellCount + 1
      winCount := if tradeProfit > 0 then s.winCount + 1 else s.winCount
      curve := s.curve.dropLast ++
        [⟨(s.curve.getLast?.map (·.date)).getD lastDate, cash, 0,
          cash - initialCapital⟩]
      position := 0 }
  else s

/-- The daily loop over the days after the first, with series indices
starting at 1 (app.py line 2048 `for day_idx in range(1, len(df))`). -/
def runLoop (P : BtParams) (O : Oracles) (initialCapital : ℚ)
    (s : SimState) (days : List (ℕ × Day)) : SimState :=
  days.foldl (dayStep P O initialCapital) s

/-- `enumerate` of the days after the first, indices starting at 1. -/
def enumTail (days : List Day) : List (ℕ × Day) :=
  ((days.drop 1).enum).map (fun p => (p.1 + 1, p.2))

/-- The backtest result dict of `backtest_single_etf` (app.py lines
2322-2341), restricted to the keys the claims read.  `win_rate` is the
constant 100.0 of line 2307. -/
structure BtResult where
  dates : List ℕ
  total_equity : List ℚ
  invested_capital : List ℚ
  profit_values : List ℚ
  win_rate : ℚ
  buy_count : ℕ
  sell_count : ℕ
  win_count : ℕ
  grid_prices : List ℚ
  trades : List Trade
  deriving Repr

/-- The full state after initialization, daily loop and close-out (the
carried-forward weekday points between the last data date and a later
requested end date only replicate the final equity values and are not
modelled; the close-out overwrite of the final point is). -/
def finalState (P : BtParams) (O : Oracles) (initialCapital : ℚ)
    (days : List Day) : SimState :=
  let s := initFirstDay P O initialCapital (days.getD 0 ⟨0, 0, 0⟩)
  let s := runLoop P O initialCapital s (enumTail days)
  closeOut initialCapital ((days.getLast?.map (·.date)).getD 0)
    ((days.getLast?.map (·.close)).getD 0) s

/-- `backtest_single_etf` (app.py lines 1756-2341) over an already
date-sliced raw series: drop NaN closes, fail on an empty or short (< 10
rows) series, otherwise run the simulation.  The two failures are the
`{'error': ...}` dicts of lines 1782-1791. -/
def backtest_single_etf (P : BtParams) (O : Oracles) (initialCapital : ℚ)
    (rows : List RawDay) : Except String BtResult :=
  let days := dropna rows
  if days.isEmpty then
    Except.error "no_data_in_range"
  else if days.length < 10 then
    Except.error "insufficient_data"
  else
    let s := finalState P O initialCapital days
    Except.ok
      { dates := s.curve.map (·.date)
        total_equity := s.curve.map (·.equity)
        invested_capital := s.curve.map (·.invested)
        profit_values := s.curve.map (·.profit)
        win_rate := 100
        buy_count := s.buyCount
        sell_count := s.sellCount
        win_count := s.winCount
        grid_prices := s.gridPrices
        trades := s.trades }

/-- The keys of the dict that `backtest_single_etf` returns on success
(app.py lines 2322-2341).  `grid_trade_shares` is **not** among them. -/
def btResultKeys : List String :=
  ["dates", "total_equity", "invested_capital", "profit_values",
   "annual_return", "sharpe_ratio", "max_drawdown", "win_rate",
   "total_trades", "buy_count", "sell_count", "win_count",
   "position_profit", "grid_profit", "initial_position", "final_position",
   "grid_prices", "trades"]

/-- Python `item['y']` where `item` is a float (app.py lines 2390-2392
subscript the plain numbers of `result['total_equity']`): a `TypeError`. -/
def pySubscriptY (_q : ℚ) : Except String ℚ :=
  Except.error "TypeError: float is not subscriptable"

instance : Inhabited BtResult :=
  ⟨{ dates := [], total_equity := [], invested_capital := [],
     profit_values := [], win_rate := 100, buy_count := 0, sell_count := 0,
     win_count := 0, grid_prices := [], trades := [] }⟩

/-- `sorted(list(set(...)))` over all per-result date lists (app.py lines
2376-2380). -/
def unionDates (results : List BtResult) : List ℕ :=
  List.insertionSort (· ≤ ·) ((results.flatMap (·.dates)).dedup)

/-- The per-date accumulation of app.py lines 2383-2398: each result adds
its value at its own index of the date; results without the date add
nothing. -/
def sumAtDate (results : List BtResult) (proj : BtResult → List ℚ)
    (d : ℕ) : ℚ :=
  results.foldl (fun acc r =>
    match r.dates.indexOf? d with
    | some i => acc + (proj r).getD i 0
    | none => acc) 0

/-- The portfolio win rate of app.py lines 2449-2452: sell trades (type
exactly `"卖出"`) whose `amount` exceeds `price * quantity` of the same
trade, over all sell trades. -/
def portfolio_win_rate (results : List BtResult) : ℚ :=
  let allTrades := results.flatMap (·.trades)
  let winTrades := (allTrades.filter (fun t =>
    t.ttype = "卖出" ∧ t.amount > t.price * (t.quantity : ℚ))).length
  let totalTrades := (allTrades.filter (fun t => t.ttype = "卖出")).length
  if totalTrades > 0 then ((winTrades : ℚ) / (totalTrades : ℚ)) * 100 else 0

/-- Modelled from the claim's words for comparison with
`portfolio_win_rate`: sell trades whose sale amount exceeds the trade's
notional at cost.  A sale's notional at cost is its cost basis times its
quantity, i.e. `amount - profit` (since `profit = amount - cost·quantity`
for both attribution rules). -/
def claim_portfolio_win_rate (results : List BtResult) : ℚ :=
  let allTrades := results.flatMap (·.trades)
  let winTrades := (allTrades.filter (fun t =>
    t.ttype = "卖出" ∧ t.amount > t.amount - t.profit)).length
  let totalTrades := (allTrades.filter (fun t => t.ttype = "卖出")).length
  if totalTrades > 0 then ((winTrades : ℚ) / (totalTrades : ℚ)) * 100 else 0

/-- The merged portfolio result (equity curve, win rate, sorted trades) of
`backtest_portfolio`.  The scalar metrics of app.py lines 2406-2447
(annualized return, Sharpe, drawdown) are downstream of the merged curve
and are referenced by no claim. -/
structure PortfolioResult where
  dates : List ℕ
  total_equity : List ℚ
  invested_capital : List ℚ
  profit : List ℚ
  win_rate : ℚ
  trades : List Trade
  deriving Repr

/-- The aggregation stage of `backtest_portfolio` (app.py lines
2363-2475) over the per-symbol result dicts.  Line 2372 reads
`etf_results[0]['grid_trade_shares']`, a key absent from the dict that
`backtest_single_etf` returns, so for a nonempty result list and
`grid_levels ≥ 1` the first loop iteration raises `KeyError`; were that
line absent, line 2390 would subscript plain floats with `['y']`
(`pySubscriptY`). -/
def backtest_portfolio_merge (results : List BtResult) (grid_levels : ℕ) :
    Except String PortfolioResult := do
  -- lines 2367-2372: grid details from the first ETF
  let _gridPrices ←
    if results.isEmpty then pure ([] : List ℚ)
    else
      -- 'grid_prices' in etf_results[0] holds (it is a result key), so the
      -- for-loop over range(grid_levels) runs; its first iteration
      -- evaluates len(etf_results[0]['grid_trade_shares'])
      if grid_levels > 0 then
        Except.error "KeyError: grid_trade_shares"
      else
        pure ((results.headD default).grid_prices)
  -- lines 2388-2392: per-result curves, subscripting floats with ['y']
  let curves ← results.mapM (fun r => do
    let te ← r.total_equity.mapM pySubscriptY
    let ic ← r.invested_capital.mapM pySubscriptY
    let pv ← r.profit_values.mapM pySubscriptY
    pure (r.dates, te, ic, pv))
  -- lines 2374-2404: date union and per-date sums
  let _ := curves
  let datesList := unionDates results
  let allTrades := (results.flatMap (·.trades))
  pure
    { dates := datesList
      total_equity := datesList.map (sumAtDate results (·.total_equity))
      invested_capital :=
        datesList.map (sumAtDate results (·.invested_capital))
      profit := datesList.map (sumAtDate results (·.profit_values))
      win_rate := portfolio_win_rate results
      trades := List.insertionSort (fun a b => a.date ≤ b.date) allTrades }

/-- One iteration of the per-symbol loop of `backtest_portfolio` (app.py
lines 2358-2361): run `backtest_single_etf`; line 2361 reads
`result['trades']`, which on a failed run is read from an `{'error': ...}`
dict and raises `KeyError: trades`. -/
def perSymbolResult (P : BtParams) (O : Oracles) (cap : ℚ)
    (rows : List RawDay) : Except String BtResult :=
  match backtest_single_etf P O cap rows with
  | Except.ok r => Except.ok r
  | Except.error _ => Except.error "KeyError: trades"

/-- `backtest_portfolio` (app.py lines 2349-2477): split the capital
evenly across the symbols, run `backtest_single_etf` per symbol, then
aggregate with `backtest_portfolio_merge`. -/
def backtest_portfolio (P : BtParams) (O : Oracles) (initial_capital : ℚ)
    (seriesList : List (List RawDay)) : Except String PortfolioResult := do
  let results ← seriesList.mapM
    (perSymbolResult P O (initial_capital / (seriesList.length : ℚ)))
  backtest_portfolio_merge results P.grid_levels

/-! ## Shared concrete inputs for witnesses and counterexamples -/

/-- Oracles for runs that supply every override: the estimators are never
consulted and the geometric power is unused. -/
def trivialOracles : Oracles :=
  ⟨fun _ => none, fun _ => RangeEst.fail, fun _ _ => 0⟩

/-- A raw series with dates 1, 2, ... in a single calendar month. -/
def mkSeries (ps : List ℚ) : List RawDay :=
  ps.enum.map (fun pr => ⟨pr.1 + 1, 1, some pr.2⟩)

/-! ## Helper lemmas -/

theorem foldl_invariant {σ α : Type} (P : σ → Prop) (f : σ → α → σ)
    (l : List α) (s : σ) (h0 : P s)
    (hstep : ∀ s a, a ∈ l → P s → P (f s a)) : P (l.foldl f s) := by
  induction l generalizing s with
  | nil => exact h0
  | cons a t ih =>
      exact ih _ (hstep _ _ (by simp) h0)
        (fun s' b hb hP => hstep s' b (by simp [hb]) hP)

theorem pySort_eq_of_pairwise_lt {l : List ℚ} (h : l.Pairwise (· < ·)) :
    pySort l = l :=
  List.Sorted.insertionSort_eq (h.imp le_of_lt)

theorem length_pySort (l : List ℚ) : (pySort l).length = l.length :=
  List.length_insertionSort _ l

theorem getD_map_range {f : ℕ → ℚ} {n i : ℕ} (h : i < n) :
    ((List.range n).map f).getD i 0 = f i := by
  rw [List.getD_eq_getElem?_getD, List.getElem?_map, List.getElem?_range h]
  rfl

theorem pairwise_lt_map_range {f : ℕ → ℚ}
    (hf : ∀ i j, i < j → f i < f j) (n : ℕ) :
    (((List.range n).map f)).Pairwise (· < ·) := by
  refine List.Pairwise.map f (fun a b hab => hab) ?_
  exact (List.pairwise_lt_range n).imp (fun {a b} hab => hf a b hab)

theorem any_const_false (l : List ℚ) : (l.any (fun _ => false)) = false := by
  simp

/-- `widenBounds` places a positive current price strictly inside the
widened bounds. -/
theorem widenBounds_lt (p u l : ℚ) (hp : 0 < p) :
    (widenBounds p u l).2 < p ∧ p < (widenBounds p u l).1 := by
  unfold widenBounds
  constructor
  · by_cases h : p ≤ l
    · simp only [if_pos h]; nlinarith
    · simp only [if_neg h]; linarith [not_le.mp h]
  · by_cases h : p ≥ u
    · simp only [if_pos h]; nlinarith
    · simp only [if_neg h]; linarith [not_le.mp h]

theorem widenBounds_lower_pos (p u l : ℚ) (hp : 0 < p) (hl : 0 < l) :
    0 < (widenBounds p u l).2 := by
  unfold widenBounds
  by_cases h : p ≤ l
  · simp only [if_pos h]; positivity
  · simpa only [if_neg h] using hl

theorem gridPricesCore_arithmetic (n : ℕ) (u l s r p : ℚ) :
    gridPricesCore "arithmetic" n u l s r p =
      pySort ((List.range n).map
        (fun (i : ℕ) => l + (i : ℚ) * ((u - l) / ((n : ℚ) - 1)))) := by
  unfold gridPricesCore
  simp

theorem gridPricesCore_geometric (n : ℕ) (u l s r p : ℚ) :
    gridPricesCore "geometric" n u l s r p =
      pySort ((List.range n).map (fun (i : ℕ) => l * r ^ i)) := by
  unfold gridPricesCore
  simp

theorem gridPricesCore_volatility {gt : String} (h1 : gt ≠ "arithmetic")
    (h2 : gt ≠ "geometric") (n : ℕ) (u l s r p : ℚ) :
    gridPricesCore gt n u l s r p = pySort (volatilityGrid n u l s) := by
  unfold gridPricesCore
  simp [h1, h2]

theorem length_volatilityGridRaw (mid s : ℚ) (half : ℕ) :
    (volatilityGridRaw mid s half).length = 2 * half + 1 := by
  simp [volatilityGridRaw]
  omega

theorem volatilityGrid_eq_take (n : ℕ) (u l s : ℚ) :
    volatilityGrid n u l s = (volatilityGridRaw ((u + l) / 2) s (n / 2)).take n := by
  unfold volatilityGrid
  show appendSteps s ((volatilityGridRaw ((u + l) / 2) s (n / 2)).take n)
      (n - ((volatilityGridRaw ((u + l) / 2) s (n / 2)).take n).length) = _
  have h : ((volatilityGridRaw ((u + l) / 2) s (n / 2)).take n).length = n := by
    rw [List.length_take, length_volatilityGridRaw]
    omega
  rw [h, Nat.sub_self]
  rfl

theorem length_volatilityGrid (n : ℕ) (u l s : ℚ) :
    (volatilityGrid n u l s).length = n := by
  rw [volatilityGrid_eq_take, List.length_take, length_volatilityGridRaw]
  omega

theorem pairwise_volatilityGridRaw {mid s : ℚ} (hm : 0 < mid) (hs : 0 < s)
    (half : ℕ) :
    (volatilityGridRaw mid s half).Pairwise (· < ·) := by
  have hms : 0 < mid * s := mul_pos hm hs
  unfold volatilityGridRaw
  rw [List.append_assoc, List.pairwise_append]
  refine ⟨?_, ?_, ?_⟩
  · rw [List.pairwise_map, List.pairwise_reverse]
    refine (List.pairwise_lt_range half).imp ?_
    intro a b hab
    have : (a : ℚ) < b := by exact_mod_cast hab
    nlinarith
  · rw [List.singleton_append, List.pairwise_cons]
    refine ⟨?_, ?_⟩
    · intro b hb
      obtain ⟨j, _, rfl⟩ := List.mem_map.mp hb
      nlinarith [Nat.cast_nonneg (α := ℚ) j]
    · rw [List.pairwise_map]
      refine (List.pairwise_lt_range half).imp ?_
      intro a b hab
      have : (a : ℚ) < b := by exact_mod_cast hab
      nlinarith
  · intro a ha b hb
    obtain ⟨j, _, rfl⟩ := List.mem_map.mp ha
    have hja : mid * (1 - ((j : ℚ) + 1) * s) < mid := by
      nlinarith [Nat.cast_nonneg (α := ℚ) j]
    rcases List.mem_cons.mp hb with rfl | hb
    · exact hja
    · obtain ⟨k, _, rfl⟩ := List.mem_map.mp hb
      nlinarith [Nat.cast_nonneg (α := ℚ) j, Nat.cast_nonneg (α := ℚ) k]

theorem pairwise_volatilityGrid {n : ℕ} {u l s : ℚ}
    (hm : 0 < (u + l) / 2) (hs : 0 < s) :
    (volatilityGrid n u l s).Pairwise (· < ·) := by
  rw [volatilityGrid_eq_take]
  exact (pairwise_volatilityGridRaw hm hs (n / 2)).sublist (List.take_sublist n _)

theorem pairwise_arithmeticGrid {n : ℕ} {l step : ℚ} (hstep : 0 < step) :
    (((List.range n).map (fun (i : ℕ) => l + (i : ℚ) * step))).Pairwise
      (· < ·) := by
  refine pairwise_lt_map_range (fun i j hij => ?_) n
  have : (i : ℚ) < (j : ℚ) := by exact_mod_cast hij
  nlinarith

theorem pairwise_geometricGrid {n : ℕ} {l r : ℚ} (hl : 0 < l) (hr : 1 < r) :
    (((List.range n).map (fun (i : ℕ) => l * r ^ i))).Pairwise (· < ·) := by
  refine pairwise_lt_map_range (fun i j hij => ?_) n
  have := pow_lt_pow_right₀ hr hij
  nlinarith

theorem one_lt_geoRatio {n : ℕ} {u l r : ℚ} (hl : 0 < l)
    (hul : l < u) (hr : r ^ (n - 1) = u / l) (hr0 : 0 < r) : 1 < r := by
  by_contra h
  push_neg at h
  have h1 : r ^ (n - 1) ≤ 1 := pow_le_one₀ hr0.le h
  rw [hr] at h1
  have h2 : 1 < u / l := (one_lt_div hl).mpr hul
  linarith

/-- C5 (amended): after bound-widening the current price lies strictly
between `levels[0]` and `levels[-1]` for the arithmetic geometry, for the
geometric geometry (with the float root constrained by its defining
equation), and for the NaN-fallback grid — but not necessarily for the
volatility-centred geometry (see the counterexample), for which the claim
as stated fails. -/
theorem price_strictly_inside_levels
    (n : ℕ) (u0 l0 s r p : ℚ) (hn : 2 ≤ n) (hp : 0 < p) (hl : 0 < l0)
    (hr : r ^ (n - 1) = (widenBounds p u0 l0).1 / (widenBounds p u0 l0).2)
    (hr0 : 0 < r) :
    (∀ gp, gp = gridPricesCore "arithmetic" n (widenBounds p u0 l0).1
        (widenBounds p u0 l0).2 s r p →
      gp.getD 0 0 < p ∧ p < gp.getD (gp.length - 1) 0) ∧
    (∀ gp, gp = gridPricesCore "geometric" n (widenBounds p u0 l0).1
        (widenBounds p u0 l0).2 s r p →
      gp.getD 0 0 < p ∧ p < gp.getD (gp.length - 1) 0) ∧
    (∀ gp, gp = fallbackGrid p n →
      gp.getD 0 0 < p ∧ p < gp.getD (gp.length - 1) 0) := by
  obtain ⟨hlp, hpu⟩ := widenBounds_lt p u0 l0 hp
  set u' := (widenBounds p u0 l0).1 with hu'
  set l' := (widenBounds p u0 l0).2 with hl'
  have hl0' : 0 < l' := widenBounds_lower_pos p u0 l0 hp hl
  have hul : l' < u' := lt_trans hlp hpu
  have hn0 : 0 < n := by omega
  have hn1 : (0 : ℚ) < (n : ℚ) - 1 := by
    have : (2 : ℚ) ≤ (n : ℚ) := by exact_mod_cast hn
    linarith
  have hcast : ((n - 1 : ℕ) : ℚ) = (n : ℚ) - 1 := by
    rw [Nat.cast_sub (by omega)]
    simp
  have hpred : n - 1 < n := by omega
  refine ⟨?_, ?_, ?_⟩
  · intro gp hgp
    have hstep : 0 < (u' - l') / ((n : ℚ) - 1) := div_pos (by linarith) hn1
    rw [gridPricesCore_arithmetic,
      pySort_eq_of_pairwise_lt (pairwise_arithmeticGrid hstep)] at hgp
    subst hgp
    rw [List.length_map, List.length_range, getD_map_range hn0,
      getD_map_range hpred]
    have hlast : ((n - 1 : ℕ) : ℚ) * ((u' - l') / ((n : ℚ) - 1)) = u' - l' := by
      rw [hcast]
      field_simp
    constructor
    · simpa using hlp
    · rw [hlast]
      linarith
  · intro gp hgp
    have hr1 : 1 < r := one_lt_geoRatio hl0' hul hr hr0
    rw [gridPricesCore_geometric,
      pySort_eq_of_pairwise_lt (pairwise_geometricGrid hl0' hr1)] at hgp
    subst hgp
    rw [List.length_map, List.length_range, getD_map_range hn0,
      getD_map_range hpred]
    constructor
    · simpa using hlp
    · rw [hr, mul_div_cancel₀ _ (ne_of_gt hl0')]
      exact hpu
  · intro gp hgp
    unfold fallbackGrid at hgp
    subst hgp
    rw [List.length_map, List.length_range, getD_map_range hn0,
      getD_map_range hpred]
    have hlast : ((n - 1 : ℕ) : ℚ) *
        ((p * (13/10) - p * (7/10)) / ((n : ℚ) - 1)) =
        p * (13/10) - p * (7/10) := by
      rw [hcast]
      field_simp
      ring
    constructor
    · simpa using by nlinarith
    · rw [hlast]
      nlinarith

/-- C5 (counterexample): with the volatility-centred geometry, supplied
spacing 1% and supplied bounds (100, 10), the current price 50 lies inside
the bounds (no widening) yet strictly below the first grid level 53.9, so
the claim as stated is false. -/
theorem price_outside_levels_cex :
    ¬ (((setup_grid ⟨5, "volatility", some (1/5), some (1/100), some 100,
          some 10⟩ trivialOracles 0 50 50000).gridPrices).getD 0 0 < 50 ∧
       (50 : ℚ) < ((setup_grid ⟨5, "volatility", some (1/5), some (1/100),
          some 100, some 10⟩ trivialOracles 0 50 50000).gridPrices).getD
          (((setup_grid ⟨5, "volatility", some (1/5), some (1/100), some 100,
          some 10⟩ trivialOracles 0 50 50000).gridPrices).length - 1) 0) := by
  have h : (setup_grid ⟨5, "volatility", some (1/5), some (1/100), some 100,
      some 10⟩ trivialOracles 0 50 50000).gridPrices =
      [539/10, 1089/20, 55, 1111/20, 561/10] := by
    norm_num [setup_grid, resolveVolatility, resolveSpacing, resolveBounds,
      widenBounds, gridPricesCore, volatilityGrid, volatilityGridRaw,
      appendSteps, pySort, List.insertionSort, List.orderedInsert,
      trivialOracles, List.range_succ]
  rw [h]
  norm_num

/-- C6 (amended): for every geometry string — arithmetic, geometric, and
the volatility-centred `else` branch taken by `"volatility"` and any other
name — the generated level list has exactly `grid_levels` entries, with no
hypotheses; and it is strictly ascending for the arithmetic geometry, for
the geometric geometry (root constrained by its defining equation), for
the volatility-centred geometry when the widened bounds' midpoint and the
effective spacing are positive, and for the NaN-fallback grid.  The
counterexample shows the ascending part fails as universally stated (a
supplied spacing of 0 gives a constant level list). -/
theorem grid_level_count_and_ascending
    (gt : String) (n : ℕ) (u0 l0 s r p : ℚ) (hn : 2 ≤ n) (hp : 0 < p)
    (hl : 0 < l0)
    (hr : r ^ (n - 1) = (widenBounds p u0 l0).1 / (widenBounds p u0 l0).2)
    (hr0 : 0 < r) (hs : 0 < s)
    (hmid : 0 < ((widenBounds p u0 l0).1 + (widenBounds p u0 l0).2) / 2) :
    (gridPricesCore gt n (widenBounds p u0 l0).1 (widenBounds p u0 l0).2
      s r p).length = n ∧
    List.Pairwise (· < ·) (gridPricesCore "arithmetic" n
      (widenBounds p u0 l0).1 (widenBounds p u0 l0).2 s r p) ∧
    List.Pairwise (· < ·) (gridPricesCore "geometric" n
      (widenBounds p u0 l0).1 (widenBounds p u0 l0).2 s r p) ∧
    (gt ≠ "arithmetic" → gt ≠ "geometric" →
      List.Pairwise (· < ·) (gridPricesCore gt n (widenBounds p u0 l0).1
        (widenBounds p u0 l0).2 s r p)) ∧
    ((fallbackGrid p n).length = n ∧
      List.Pairwise (· < ·) (fallbackGrid p n)) := by
  obtain ⟨hlp, hpu⟩ := widenBounds_lt p u0 l0 hp
  have hl0' : 0 < (widenBounds p u0 l0).2 := widenBounds_lower_pos p u0 l0 hp hl
  have hul : (widenBounds p u0 l0).2 < (widenBounds p u0 l0).1 :=
    lt_trans hlp hpu
  have hn1 : (0 : ℚ) < (n : ℚ) - 1 := by
    have : (2 : ℚ) ≤ (n : ℚ) := by exact_mod_cast hn
    linarith
  have hstep : 0 < ((widenBounds p u0 l0).1 - (widenBounds p u0 l0).2) /
      ((n : ℚ) - 1) := div_pos (by linarith) hn1
  refine ⟨?_, ?_, ?_, ?_, ?_, ?_⟩
  · by_cases h1 : gt = "arithmetic"
    · subst h1
      rw [gridPricesCore_arithmetic, length_pySort, List.length_map,
        List.length_range]
    · by_cases h2 : gt = "geometric"
      · subst h2
        rw [gridPricesCore_geometric, length_pySort, List.length_map,
          List.length_range]
      · rw [gridPricesCore_volatility h1 h2, length_pySort,
          length_volatilityGrid]
  · rw [gridPricesCore_arithmetic,
      pySort_eq_of_pairwise_lt (pairwise_arithmeticGrid hstep)]
    exact pairwise_arithmeticGrid hstep
  · have hr1 : 1 < r := one_lt_geoRatio hl0' hul hr hr0
    rw [gridPricesCore_geometric,
      pySort_eq_of_pairwise_lt (pairwise_geometricGrid hl0' hr1)]
    exact pairwise_geometricGrid hl0' hr1
  · intro h1 h2
    rw [gridPricesCore_volatility h1 h2,
      pySort_eq_of_pairwise_lt (pairwise_volatilityGrid hmid hs)]
    exact pairwise_volatilityGrid hmid hs
  · rw [fallbackGrid, List.length_map, List.length_range]
  · unfold fallbackGrid
    have hstep' : 0 < (p * (13/10) - p * (7/10)) / ((n : ℚ) - 1) :=
      div_pos (by nlinarith) hn1
    exact pairwise_arithmeticGrid hstep'

/-- Witness for the C6 amended theorem at `gt = "volatility"`, `n = 4`,
bounds `(8, 1)`, spacing `1/2`, price `2`, geometric root `2`. -/
theorem grid_level_count_and_ascending_witness :
    (2 ≤ 4 ∧ (0 : ℚ) < 2 ∧ (0 : ℚ) < 1 ∧
      (2 : ℚ) ^ (4 - 1) = (widenBounds 2 8 1).1 / (widenBounds 2 8 1).2 ∧
      (0 : ℚ) < 2 ∧ (0 : ℚ) < 1/2 ∧
      0 < ((widenBounds 2 8 1).1 + (widenBounds 2 8 1).2) / 2) ∧
    ((gridPricesCore "volatility" 4 (widenBounds 2 8 1).1
        (widenBounds 2 8 1).2 (1/2) 2 2).length = 4 ∧
      List.Pairwise (· < ·) (gridPricesCore "arithmetic" 4
        (widenBounds 2 8 1).1 (widenBounds 2 8 1).2 (1/2) 2 2) ∧
      List.Pairwise (· < ·) (gridPricesCore "geometric" 4
        (widenBounds 2 8 1).1 (widenBounds 2 8 1).2 (1/2) 2 2) ∧
      ("volatility" ≠ "arithmetic" → "volatility" ≠ "geometric" →
        List.Pairwise (· < ·) (gridPricesCore "volatility" 4
          (widenBounds 2 8 1).1 (widenBounds 2 8 1).2 (1/2) 2 2)) ∧
      ((fallbackGrid 2 4).length = 4 ∧
        List.Pairwise (· < ·) (fallbackGrid 2 4))) :=
  ⟨⟨by decide, by decide, by decide, by norm_num [widenBounds], by decide,
    by norm_num, by norm_num [widenBounds]⟩,
   grid_level_count_and_ascending "volatility" 4 8 1 (1/2) 2 2 (by decide)
     (by decide) (by decide) (by norm_num [widenBounds]) (by decide)
     (by norm_num) (by norm_num [widenBounds])⟩

/-- C6 (counterexample): the volatility-centred geometry with a supplied
grid spacing of 0 (an input `backtest_single_etf` accepts unchecked)
builds the constant level list `[10, 10, 10]`: the level count is right
but the sequence is not strictly ascending, refuting the universally
quantified claim. -/
theorem constant_volatility_grid_cex :
    (setup_grid ⟨3, "volatility", some (1/5), some 0, some 12, some 8⟩
        trivialOracles 0 10 50000).gridPrices = [10, 10, 10] ∧
    ¬ List.Pairwise (· < ·)
      ((setup_grid ⟨3, "volatility", some (1/5), some 0, some 12, some 8⟩
        trivialOracles 0 10 50000).gridPrices) := by
  have h : (setup_grid ⟨3, "volatility", some (1/5), some 0, some 12, some 8⟩
      trivialOracles 0 10 50000).gridPrices = [10, 10, 10] := by
    norm_num [setup_grid, resolveVolatility, resolveSpacing, resolveBounds,
      widenBounds, gridPricesCore, volatilityGrid, volatilityGridRaw,
      appendSteps, pySort, List.insertionSort, List.orderedInsert,
      trivialOracles, List.range_succ]
  refine ⟨h, ?_⟩
  rw [h]
  norm_num

/-! ## Concrete runs evaluated day by day (used by counterexamples) -/

/-- Arithmetic grid over bounds (130, 30) with 5 levels and all
estimator overrides supplied. -/
def P7run : BtParams := ⟨5, "arithmetic", some (1/5), some (1/40), some 130, some 30⟩

/-- Ten trading days in one month: 100, a drop to 40, a rise to 110,
then flat. -/
def series7 : List RawDay := mkSeries ([100, 40, 110] ++ List.replicate 7 110)

/-- The day list of `series7` after `dropna`. -/
def days7 : List Day := [⟨1, 1, 100⟩, ⟨2, 1, 40⟩, ⟨3, 1, 110⟩, ⟨4, 1, 110⟩, ⟨5, 1, 110⟩, ⟨6, 1, 110⟩, ⟨7, 1, 110⟩, ⟨8, 1, 110⟩, ⟨9, 1, 110⟩, ⟨10, 1, 110⟩]

theorem days7_eval : dropna series7 = days7 := by
  norm_num [dropna, series7, mkSeries, days7, List.enum, List.enumFrom,
    List.filterMap_cons, List.filterMap_nil, Option.map_some', Option.map_none']

theorem enum7_eval : enumTail days7 = [(1, ⟨2, 1, 40⟩), (2, ⟨3, 1, 110⟩), (3, ⟨4, 1, 110⟩), (4, ⟨5, 1, 110⟩), (5, ⟨6, 1, 110⟩), (6, ⟨7, 1, 110⟩), (7, ⟨8, 1, 110⟩), (8, ⟨9, 1, 110⟩), (9, ⟨10, 1, 110⟩)] := by
  norm_num [enumTail, days7, List.enum, List.enumFrom]

/-- State after the first-day initialization of this run. -/
def S7st0 : SimState :=
  { cash := 90000,
    position := 100,
    trades := [{ date := 1, ttype := "买入", price := 100, quantity := 100, amount := 10000, profit := 0 }],
    gridPrices := [30, 55, 80, 105, 130],
    gridBuyPrices := [],
    gridTradeShares := [100, 100, 100, 100, 100],
    prevGrid := 3,
    currentMonth := 1,
    daysSinceReset := 0,
    buyCount := 1,
    sellCount := 0,
    winCount := 0,
    curve := [{ date := 1, equity := 100000, invested := 10000, profit := 0 }] }

theorem S7e0 :
    initFirstDay P7run trivialOracles 100000 (days7.getD 0 ⟨0, 0, 0⟩) =
    S7st0 := by
  norm_num [initFirstDay, appendEquityPoint, setup_grid, resolveVolatility, resolveSpacing, resolveBounds, widenBounds, gridPricesCore, volatilityGrid, volatilityGridRaw, appendSteps, pySort, List.insertionSort, List.orderedInsert, gridTradeSharesCalc, findGrid, pyInt, List.find?, List.range_succ, trivialOracles, days7, P7run, S7st0]
  try (split_ifs <;> simp_all <;> norm_num at *)

/-- State after day 2 of this run. -/
def S7st1 : SimState :=
  { cash := 82000,
    position := 300,
    trades := [{ date := 1, ttype := "买入", price := 100, quantity := 100, amount := 10000, profit := 0 },
               { date := 2, ttype := "买入", price := 40, quantity := 100, amount := 4000, profit := 0 },
               { date := 2, ttype := "买入", price := 40, quantity := 100, amount := 4000, profit := 0 }],
    gridPrices := [30, 55, 80, 105, 130],
    gridBuyPrices := [(1, 40), (2, 40)],
    gridTradeShares := [100, 100, 100, 100, 100],
    prevGrid := 1,
    currentMonth := 1,
    daysSinceReset := 1,
    buyCount := 3,
    sellCount := 0,
    winCount := 0,
    curve := [{ date := 1, equity := 100000, invested := 10000, profit := 0 },
              { date := 2, equity := 94000, invested := 18000, profit := -6000 }] }

theorem S7e1 :
    dayStep P7run trivialOracles 100000 S7st0 (1, ⟨2, 1, 40⟩) =
    S7st1 := by
  norm_num [dayStep, bumpAndReset, tradeCrossings,
    appendEquityPoint, applyReset, findGrid, sellLevelStep, buyLevelStep, adjustBuyQuantity, sellProfit, avgBuyCost, dictGet, pyInt, pyFloorDiv, pyRange, pyRangeDown, setup_grid, resolveVolatility, resolveSpacing, resolveBounds, widenBounds, gridPricesCore, volatilityGrid, volatilityGridRaw, appendSteps, pySort, List.insertionSort, List.orderedInsert, gridTradeSharesCalc, List.find?, List.range_succ, trivialOracles, P7run, S7st0, S7st1]
  try (split_ifs <;> simp_all <;> norm_num at *)

/-- State after day 3 of this run. -/
def S7st2 : SimState :=
  { cash := 115000,
    position := 0,
    trades := [{ date := 1, ttype := "买入", price := 100, quantity := 100, amount := 10000, profit := 0 },
               { date := 2, ttype := "买入", price := 40, quantity := 100, amount := 4000, profit := 0 },
               { date := 2, ttype := "买入", price := 40, quantity := 100, amount := 4000, profit := 0 },
               { date := 3, ttype := "卖出", price := 110, quantity := 100, amount := 11000, profit := 7000 },
               { date := 3, ttype := "卖出", price := 110, quantity := 100, amount := 11000, profit := 2200 },
               { date := 3, ttype := "卖出", price := 110, quantity := 100, amount := 11000, profit := 2200 }],
    gridPrices := [30, 55, 80, 105, 130],
    gridBuyPrices := [(1, 40), (2, 40)],
    gridTradeShares := [100, 100, 100, 100, 100],
    prevGrid := 4,
    currentMonth := 1,
    daysSinceReset := 2,
    buyCount := 3,
    sellCount := 3,
    winCount := 3,
    curve := [{ date := 1, equity := 100000, invested := 10000, profit := 0 },
              { date := 2, equity := 94000, invested := 18000, profit := -6000 },
              { date := 3, equity := 115000, invested := -15000, profit := 15000 }] }

theorem S7e2 :
    dayStep P7run trivialOracles 100000 S7st1 (2, ⟨3, 1, 110⟩) =
    S7st2 := by
  norm_num [dayStep, bumpAndReset, tradeCrossings,
    appendEquityPoint, applyReset, findGrid, sellLevelStep, buyLevelStep, adjustBuyQuantity, sellProfit, avgBuyCost, dictGet, pyInt, pyFloorDiv, pyRange, pyRangeDown, setup_grid, resolveVolatility, resolveSpacing, resolveBounds, widenBounds, gridPricesCore, volatilityGrid, volatilityGridRaw, appendSteps, pySort, List.insertionSort, List.orderedInsert, gridTradeSharesCalc, List.find?, List.range_succ, trivialOracles, P7run, S7st1, S7st2]
  try (split_ifs <;> simp_all <;> norm_num at *)

/-- State after day 4 of this run. -/
def S7st3 : SimState :=
  { cash := 115000,
    position := 0,
    trades := [{ date := 1, ttype := "买入", price := 100, quantity := 100, amount := 10000, profit := 0 },
               { date := 2, ttype := "买入", price := 40, quantity := 100, amount := 4000, profit := 0 },
               { date := 2, ttype := "买入", price := 40, quantity := 100, amount := 4000, profit := 0 },
               { date := 3, ttype := "卖出", price := 110, quantity := 100, amount := 11000, profit := 7000 },
               { date := 3, ttype := "卖出", price := 110, quantity := 100, amount := 11000, profit := 2200 },
               { date := 3, ttype := "卖出", price := 110, quantity := 100, amount := 11000, profit := 2200 }],
    gridPrices := [30, 55, 80, 105, 130],
    gridBuyPrices := [(1, 40), (2, 40)],
    gridTradeShares := [100, 100, 100, 100, 100],
    prevGrid := 4,
    currentMonth := 1,
    daysSinceReset := 3,
    buyCount := 3,
    sellCount := 3,
    winCount := 3,
    curve := [{ date := 1, equity := 100000, invested := 10000, profit := 0 },
              { date := 2, equity := 94000, invested := 18000, profit := -6000 },
              { date := 3, equity := 115000, invested := -15000, profit := 15000 },
              { date := 4, equity := 115000, invested := -15000, profit := 15000 }] }

theorem S7e3 :
    dayStep P7run trivialOracles 100000 S7st2 (3, ⟨4, 1, 110⟩) =
    S7st3 := by
  norm_num [dayStep, bumpAndReset, tradeCrossings,
    appendEquityPoint, applyReset, findGrid, sellLevelStep, buyLevelStep, adjustBuyQuantity, sellProfit, avgBuyCost, dictGet, pyInt, pyFloorDiv, pyRange, pyRangeDown, setup_grid, resolveVolatility, resolveSpacing, resolveBounds, widenBounds, gridPricesCore, volatilityGrid, volatilityGridRaw, appendSteps, pySort, List.insertionSort, List.orderedInsert, gridTradeSharesCalc, List.find?, List.range_succ, trivialOracles, P7run, S7st2, S7st3]
  try (split_ifs <;> simp_all <;> norm_num at *)

/-- State after day 5 of this run. -/
def S7st4 : SimState :=
  { cash := 115000,
    position := 0,
    trades := [{ date := 1, ttype := "买入", price := 100, quantity := 100, amount := 10000, profit := 0 },
               { date := 2, ttype := "买入", price := 40, quantity := 100, amount := 4000, profit := 0 },
               { date := 2, ttype := "买入", price := 40, quantity := 100, amount := 4000, profit := 0 },
               { date := 3, ttype := "卖出", price := 110, quantity := 100, amount := 11000, profit := 7000 },
               { date := 3, ttype := "卖出", price := 110, quantity := 100, amount := 11000, profit := 2200 },
               { date := 3, ttype := "卖出", price := 110, quantity := 100, amount := 11000, profit := 2200 }],
    gridPrices := [30, 55, 80, 105, 130],
    gridBuyPrices := [(1, 40), (2, 40)],
    gridTradeShares := [100, 100, 100, 100, 100],
    prevGrid := 4,
    currentMonth := 1,
    daysSinceReset := 4,
    buyCount := 3,
    sellCount := 3,
    winCount := 3,
    curve := [{ date := 1, equity := 100000, invested := 10000, profit := 0 },
              { date := 2, equity := 94000, invested := 18000, profit := -6000 },
              { date := 3, equity := 115000, invested := -15000, profit := 15000 },
              { date := 4, equity := 115000, invested := -15000, profit := 15000 },
              { date := 5, equity := 115000, invested := -15000, profit := 15000 }] }

theorem S7e4 :
    dayStep P7run trivialOracles 100000 S7st3 (4, ⟨5, 1, 110⟩) =
    S7st4 := by
  norm_num [dayStep, bumpAndReset, tradeCrossings,
    appendEquityPoint, applyReset, findGrid, sellLevelStep, buyLevelStep, adjustBuyQuantity, sellProfit, avgBuyCost, dictGet, pyInt, pyFloorDiv, pyRange, pyRangeDown, setup_grid, resolveVolatility, resolveSpacing, resolveBounds, widenBounds, gridPricesCore, volatilityGrid, volatilityGridRaw, appendSteps, pySort, List.insertionSort, List.orderedInsert, gridTradeSharesCalc, List.find?, List.range_succ, trivialOracles, P7run, S7st3, S7st4]
  try (split_ifs <;> simp_all <;> norm_num at *)

/-- State after day 6 of this run. -/
def S7st5 : SimState :=
  { cash := 115000,
    position := 0,
    trades := [{ date := 1, ttype := "买入", price := 100, quantity := 100, amount := 10000, profit := 0 },
               { date := 2, ttype := "买入", price := 40, quantity := 100, amount := 4000, profit := 0 },
               { date := 2, ttype := "买入", price := 40, quantity := 100, amount := 4000, profit := 0 },
               { date := 3, ttype := "卖出", price := 110, quantity := 100, amount := 11000, profit := 7000 },
               { date := 3, ttype := "卖出", price := 110, quantity := 100, amount := 11000, profit := 2200 },
               { date := 3, ttype := "卖出", price := 110, quantity := 100, amount := 11000, profit := 2200 }],
    gridPrices := [30, 55, 80, 105, 130],
    gridBuyPrices := [(1, 40), (2, 40)],
    gridTradeShares := [100, 100, 100, 100, 100],
    prevGrid := 4,
    currentMonth := 1,
    daysSinceReset := 5,
    buyCount := 3,
    sellCount := 3,
    winCount := 3,
    curve := [{ date := 1, equity := 100000, invested := 10000, profit := 0 },
              { date := 2, equity := 94000, invested := 18000, profit := -6000 },
              { date := 3, equity := 115000, invested := -15000, profit := 15000 },
              { date := 4, equity := 115000, invested := -15000, profit := 15000 },
              { date := 5, equity := 115000, invested := -15000, profit := 15000 },
              { date := 6, equity := 115000, invested := -15000, profit := 15000 }] }

theorem S7e5 :
    dayStep P7run trivialOracles 100000 S7st4 (5, ⟨6, 1, 110⟩) =
    S7st5 := by
  norm_num [dayStep, bumpAndReset, tradeCrossings,
    appendEquityPoint, applyReset, findGrid, sellLevelStep, buyLevelStep, adjustBuyQuantity, sellProfit, avgBuyCost, dictGet, pyInt, pyFloorDiv, pyRange, pyRangeDown, setup_grid, resolveVolatility, resolveSpacing, resolveBounds, widenBounds, gridPricesCore, volatilityGrid, volatilityGridRaw, appendSteps, pySort, List.insertionSort, List.orderedInsert, gridTradeSharesCalc, List.find?, List.range_succ, trivialOracles, P7run, S7st4, S7st5]
  try (split_ifs <;> simp_all <;> norm_num at *)

/-- State after day 7 of this run. -/
def S7st6 : SimState :=
  { cash := 115000,
    position := 0,
    trades := [{ date := 1, ttype := "买入", price := 100, quantity := 100, amount := 10000, profit := 0 },
               { date := 2, ttype := "买入", price := 40, quantity := 100, amount := 4000, profit := 0 },
               { date := 2, ttype := "买入", price := 40, quantity := 100, amount := 4000, profit := 0 },
               { date := 3, ttype := "卖出", price := 110, quantity := 100, amount := 11000, profit := 7000 },
               { date := 3, ttype := "卖出", price := 110, quantity := 100, amount := 11000, profit := 2200 },
               { date := 3, ttype := "卖出", price := 110, quantity := 100, amount := 11000, profit := 2200 }],
    gridPrices := [30, 55, 80, 105, 130],
    gridBuyPrices := [(1, 40), (2, 40)],
    gridTradeShares := [100, 100, 100, 100, 100],
    prevGrid := 4,
    currentMonth := 1,
    daysSinceReset := 6,
    buyCount := 3,
    sellCount := 3,
    winCount := 3,
    curve := [{ date := 1, equity := 100000, invested := 10000, profit := 0 },
              { date := 2, equity := 94000, invested := 18000, profit := -6000 },
              { date := 3, equity := 115000, invested := -15000, profit := 15000 },
              { date := 4, equity := 115000, invested := -15000, profit := 15000 },
              { date := 5, equity := 115000, invested := -15000, profit := 15000 },
              { date := 6, equity := 115000, invested := -15000, profit := 15000 },
              { date := 7, equity := 115000, invested := -15000, profit := 15000 }] }

theorem S7e6 :
    dayStep P7run trivialOracles 100000 S7st5 (6, ⟨7, 1, 110⟩) =
    S7st6 := by
  norm_num [dayStep, bumpAndReset, tradeCrossings,
    appendEquityPoint, applyReset, findGrid, sellLevelStep, buyLevelStep, adjustBuyQuantity, sellProfit, avgBuyCost, dictGet, pyInt, pyFloorDiv, pyRange, pyRangeDown, setup_grid, resolveVolatility, resolveSpacing, resolveBounds, widenBounds, gridPricesCore, volatilityGrid, volatilityGridRaw, appendSteps, pySort, List.insertionSort, List.orderedInsert, gridTradeSharesCalc, List.find?, List.range_succ, trivialOracles, P7run, S7st5, S7st6]
  try (split_ifs <;> simp_all <;> norm_num at *)

/-- State after day 8 of this run. -/
def S7st7 : SimState :=
  { cash := 115000,
    position := 0,
    trades := [{ date := 1, ttype := "买入", price := 100, quantity := 100, amount := 10000, profit := 0 },
               { date := 2, ttype := "买入", price := 40, quantity := 100, amount := 4000, profit := 0 },
               { date := 2, ttype := "买入", price := 40, quantity := 100, amount := 4000, profit := 0 },
               { date := 3, ttype := "卖出", price := 110, quantity := 100, amount := 11000, profit := 7000 },
               { date := 3, ttype := "卖出", price := 110, quantity := 100, amount := 11000, profit := 2200 },
               { date := 3, ttype := "卖出", price := 110, quantity := 100, amount := 11000, profit := 2200 }],
    gridPrices := [30, 55, 80, 105, 130],
    gridBuyPrices := [(1, 40), (2, 40)],
    gridTradeShares := [100, 100, 100, 100, 100],
    prevGrid := 4,
    currentMonth := 1,
    daysSinceReset := 7,
    buyCount := 3,
    sellCount := 3,
    winCount := 3,
    curve := [{ date := 1, equity := 100000, invested := 10000, profit := 0 },
              { date := 2, equity := 94000, invested := 18000, profit := -6000 },
              { date := 3, equity := 115000, invested := -15000, profit := 15000 },
              { date := 4, equity := 115000, invested := -15000, profit := 15000 },
              { date := 5, equity := 115000, invested := -15000, profit := 15000 },
              { date := 6, equity := 115000, invested := -15000, profit := 15000 },
              { date := 7, equity := 115000, invested := -15000, profit := 15000 },
              { date := 8, equity := 115000, invested := -15000, profit := 15000 }] }

theorem S7e7 :
    dayStep P7run trivialOracles 100000 S7st6 (7, ⟨8, 1, 110⟩) =
    S7st7 := by
  norm_num [dayStep, bumpAndReset, tradeCrossings,
    appendEquityPoint, applyReset, findGrid, sellLevelStep, buyLevelStep, adjustBuyQuantity, sellProfit, avgBuyCost, dictGet, pyInt, pyFloorDiv, pyRange, pyRangeDown, setup_grid, resolveVolatility, resolveSpacing, resolveBounds, widenBounds, gridPricesCore, volatilityGrid, volatilityGridRaw, appendSteps, pySort, List.insertionSort, List.orderedInsert, gridTradeSharesCalc, List.find?, List.range_succ, trivialOracles, P7run, S7st6, S7st7]
  try (split_ifs <;> simp_all <;> norm_num at *)

/-- State after day 9 of this run. -/
def S7st8 : SimState :=
  { cash := 115000,
    position := 0,
    trades := [{ date := 1, ttype := "买入", price := 100, quantity := 100, amount := 10000, profit := 0 },
               { date := 2, ttype := "买入", price := 40, quantity := 100, amount := 4000, profit := 0 },
               { date := 2, ttype := "买入", price := 40, quantity := 100, amount := 4000, profit := 0 },
               { date := 3, ttype := "卖出", price := 110, quantity := 100, amount := 11000, profit := 7000 },
               { date := 3, ttype := "卖出", price := 110, quantity := 100, amount := 11000, profit := 2200 },
               { date := 3, ttype := "卖出", price := 110, quantity := 100, amount := 11000, profit := 2200 }],
    gridPrices := [30, 55, 80, 105, 130],
    gridBuyPrices := [(1, 40), (2, 40)],
    gridTradeShares := [100, 100, 100, 100, 100],
    prevGrid := 4,
    currentMonth := 1,
    daysSinceReset := 8,
    buyCount := 3,
    sellCount := 3,
    winCount := 3,
    curve := [{ date := 1, equity := 100000, invested := 10000, profit := 0 },
              { date := 2, equity := 94000, invested := 18000, profit := -6000 },
              { date := 3, equity := 115000, invested := -15000, profit := 15000 },
              { date := 4, equity := 115000, invested := -15000, profit := 15000 },
              { date := 5, equity := 115000, invested := -15000, profit := 15000 },
              { date := 6, equity := 115000, invested := -15000, profit := 15000 },
              { date := 7, equity := 115000, invested := -15000, profit := 15000 },
              { date := 8, equity := 115000, invested := -15000, profit := 15000 },
              { date := 9, equity := 115000, invested := -15000, profit := 15000 }] }

theorem S7e8 :
    dayStep P7run trivialOracles 100000 S7st7 (8, ⟨9, 1, 110⟩) =
    S7st8 := by
  norm_num [dayStep, bumpAndReset, tradeCrossings,
    appendEquityPoint, applyReset, findGrid, sellLevelStep, buyLevelStep, adjustBuyQuantity, sellProfit, avgBuyCost, dictGet, pyInt, pyFloorDiv, pyRange, pyRangeDown, setup_grid, resolveVolatility, resolveSpacing, resolveBounds, widenBounds, gridPricesCore, volatilityGrid, volatilityGridRaw, appendSteps, pySort, List.insertionSort, List.orderedInsert, gridTradeSharesCalc, List.find?, List.range_succ, trivialOracles, P7run, S7st7, S7st8]
  try (split_ifs <;> simp_all <;> norm_num at *)

/-- State after day 10 of this run. -/
def S7st9 : SimState :=
  { cash := 115000,
    position := 0,
    trades := [{ date := 1, ttype := "买入", price := 100, quantity := 100, amount := 10000, profit := 0 },
               { date := 2, ttype := "买入", price := 40, quantity := 100, amount := 4000, profit := 0 },
               { date := 2, ttype := "买入", price := 40, quantity := 100, amount := 4000, profit := 0 },
               { date := 3, ttype := "卖出", price := 110, quantity := 100, amount := 11000, profit := 7000 },
               { date := 3, ttype := "卖出", price := 110, quantity := 100, amount := 11000, profit := 2200 },
               { date := 3, ttype := "卖出", price := 110, quantity := 100, amount := 11000, profit := 2200 }],
    gridPrices := [30, 55, 80, 105, 130],
    gridBuyPrices := [(1, 40), (2, 40)],
    gridTradeShares := [100, 100, 100, 100, 100],
    prevGrid := 4,
    currentMonth := 1,
    daysSinceReset := 9,
    buyCount := 3,
    sellCount := 3,
    winCount := 3,
    curve := [{ date := 1, equity := 100000, invested := 10000, profit := 0 },
              { date := 2, equity := 94000, invested := 18000, profit := -6000 },
              { date := 3, equity := 115000, invested := -15000, profit := 15000 },
              { date := 4, equity := 115000, invested := -15000, profit := 15000 },
              { date := 5, equity := 115000, invested := -15000, profit := 15000 },
              { date := 6, equity := 115000, invested := -15000, profit := 15000 },
              { date := 7, equity := 115000, invested := -15000, profit := 15000 },
              { date := 8, equity := 115000, invested := -15000, profit := 15000 },
              { date := 9, equity := 115000, invested := -15000, profit := 15000 },
              { date := 10, equity := 115000, invested := -15000, profit := 15000 }] }

theorem S7e9 :
    dayStep P7run trivialOracles 100000 S7st8 (9, ⟨10, 1, 110⟩) =
    S7st9 := by
  norm_num [dayStep, bumpAndReset, tradeCrossings,
    appendEquityPoint, applyReset, findGrid, sellLevelStep, buyLevelStep, adjustBuyQuantity, sellProfit, avgBuyCost, dictGet, pyInt, pyFloorDiv, pyRange, pyRangeDown, setup_grid, resolveVolatility, resolveSpacing, resolveBounds, widenBounds, gridPricesCore, volatilityGrid, volatilityGridRaw, appendSteps, pySort, List.insertionSort, List.orderedInsert, gridTradeSharesCalc, List.find?, List.range_succ, trivialOracles, P7run, S7st8, S7st9]
  try (split_ifs <;> simp_all <;> norm_num at *)

theorem run7_loop :
    runLoop P7run trivialOracles 100000 S7st0 (enumTail days7) =
    S7st9 := by
  rw [enum7_eval, runLoop]
  rw [List.foldl_cons, S7e1, List.foldl_cons, S7e2, List.foldl_cons, S7e3, List.foldl_cons, S7e4, List.foldl_cons, S7e5, List.foldl_cons, S7e6, List.foldl_cons, S7e7, List.foldl_cons, S7e8, List.foldl_cons, S7e9, List.foldl_nil]

/-- State after the forced close-out at the end of this run. -/
def S7fin : SimState :=
  { cash := 115000,
    position := 0,
    trades := [{ date := 1, ttype := "买入", price := 100, quantity := 100, amount := 10000, profit := 0 },
               { date := 2, ttype := "买入", price := 40, quantity := 100, amount := 4000, profit := 0 },
               { date := 2, ttype := "买入", price := 40, quantity := 100, amount := 4000, profit := 0 },
               { date := 3, ttype := "卖出", price := 110, quantity := 100, amount := 11000, profit := 7000 },
               { date := 3, ttype := "卖出", price := 110, quantity := 100, amount := 11000, profit := 2200 },
               { date := 3, ttype := "卖出", price := 110, quantity := 100, amount := 11000, profit := 2200 }],
    gridPrices := [30, 55, 80, 105, 130],
    gridBuyPrices := [(1, 40), (2, 40)],
    gridTradeShares := [100, 100, 100, 100, 100],
    prevGrid := 4,
    currentMonth := 1,
    daysSinceReset := 9,
    buyCount := 3,
    sellCount := 3,
    winCount := 3,
    curve := [{ date := 1, equity := 100000, invested := 10000, profit := 0 },
              { date := 2, equity := 94000, invested := 18000, profit := -6000 },
              { date := 3, equity := 115000, invested := -15000, profit := 15000 },
              { date := 4, equity := 115000, invested := -15000, profit := 15000 },
              { date := 5, equity := 115000, invested := -15000, profit := 15000 },
              { date := 6, equity := 115000, invested := -15000, profit := 15000 },
              { date := 7, equity := 115000, invested := -15000, profit := 15000 },
              { date := 8, equity := 115000, invested := -15000, profit := 15000 },
              { date := 9, equity := 115000, invested := -15000, profit := 15000 },
              { date := 10, equity := 115000, invested := -15000, profit := 15000 }] }

/-- The full simulation of the ten-day run: buys at 100 and twice at 40, then three sells at 110, no close-out (the position is flat). -/
theorem run7_final :
    finalState P7run trivialOracles 100000 days7 = S7fin := by
  simp only [finalState]
  rw [S7e0, run7_loop]
  norm_num [closeOut, sellProfit, avgBuyCost, pyInt, days7,
    S7st9, S7fin]
  try (split_ifs <;> simp_all <;> norm_num at *)

/-- Arithmetic grid over bounds (4000, 20) with 3 levels. -/
def P3run : BtParams := ⟨3, "arithmetic", some (1/5), some (1/40), some 4000, some 20⟩

/-- Sixteen trading days in one month oscillating between the two
lowest levels, draining cash. -/
def series3 : List RawDay := mkSeries [22, 20, 21, 20, 21, 20, 21, 20, 21, 20, 21, 20, 21, 20, 337, 20]

/-- The day list of `series3` after `dropna`. -/
def days3 : List Day := [⟨1, 1, 22⟩, ⟨2, 1, 20⟩, ⟨3, 1, 21⟩, ⟨4, 1, 20⟩, ⟨5, 1, 21⟩, ⟨6, 1, 20⟩, ⟨7, 1, 21⟩, ⟨8, 1, 20⟩, ⟨9, 1, 21⟩, ⟨10, 1, 20⟩, ⟨11, 1, 21⟩, ⟨12, 1, 20⟩, ⟨13, 1, 21⟩, ⟨14, 1, 20⟩, ⟨15, 1, 337⟩, ⟨16, 1, 20⟩]

theorem days3_eval : dropna series3 = days3 := by
  norm_num [dropna, series3, mkSeries, days3, List.enum, List.enumFrom,
    List.filterMap_cons, List.filterMap_nil, Option.map_some', Option.map_none']

theorem enum3_eval : enumTail days3 = [(1, ⟨2, 1, 20⟩), (2, ⟨3, 1, 21⟩), (3, ⟨4, 1, 20⟩), (4, ⟨5, 1, 21⟩), (5, ⟨6, 1, 20⟩), (6, ⟨7, 1, 21⟩), (7, ⟨8, 1, 20⟩), (8, ⟨9, 1, 21⟩), (9, ⟨10, 1, 20⟩), (10, ⟨11, 1, 21⟩), (11, ⟨12, 1, 20⟩), (12, ⟨13, 1, 21⟩), (13, ⟨14, 1, 20⟩), (14, ⟨15, 1, 337⟩), (15, ⟨16, 1, 20⟩)] := by
  norm_num [enumTail, days3, List.enum, List.enumFrom]

/-- State after the first-day initialization of this run. -/
def S3st0 : SimState :=
  { cash := 2684400,
    position := 99800,
    trades := [{ date := 1, ttype := "买入", price := 22, quantity := 99800, amount := 2195600, profit := 0 }],
    gridPrices := [20, 2010, 4000],
    gridBuyPrices := [],
    gridTradeShares := [20300, 400, 300],
    prevGrid := 1,
    currentMonth := 1,
    daysSinceReset := 0,
    buyCount := 1,
    sellCount := 0,
    winCount := 0,
    curve := [{ date := 1, equity := 4880000, invested := 2195600, profit := 0 }] }

theorem S3e0 :
    initFirstDay P3run trivialOracles 4880000 (days3.getD 0 ⟨0, 0, 0⟩) =
    S3st0 := by
  norm_num [initFirstDay, appendEquityPoint, setup_grid, resolveVolatility, resolveSpacing, resolveBounds, widenBounds, gridPricesCore, volatilityGrid, volatilityGridRaw, appendSteps, pySort, List.insertionSort, List.orderedInsert, gridTradeSharesCalc, findGrid, pyInt, List.find?, List.range_succ, trivialOracles, days3, P3run, S3st0]
  try (split_ifs <;> simp_all <;> norm_num at *)

/-- State after day 2 of this run. -/
def S3st1 : SimState :=
  { cash := 2278400,
    position := 120100,
    trades := [{ date := 1, ttype := "买入", price := 22, quantity := 99800, amount := 2195600, profit := 0 },
               { date := 2, ttype := "买入", price := 20, quantity := 20300, amount := 406000, profit := 0 }],
    gridPrices := [20, 2010, 4000],
    gridBuyPrices := [(0, 20)],
    gridTradeShares := [20300, 400, 300],
    prevGrid := 0,
    currentMonth := 1,
    daysSinceReset := 1,
    buyCount := 2,
    sellCount := 0,
    winCount := 0,
    curve := [{ date := 1, equity := 4880000, invested := 2195600, profit := 0 },
              { date := 2, equity := 4680400, invested := 2601600, profit := -199600 }] }

theorem S3e1 :
    dayStep P3run trivialOracles 4880000 S3st0 (1, ⟨2, 1, 20⟩) =
    S3st1 := by
  norm_num [dayStep, bumpAndReset, tradeCrossings,
    appendEquityPoint, applyReset, findGrid, sellLevelStep, buyLevelStep, adjustBuyQuantity, sellProfit, avgBuyCost, dictGet, pyInt, pyFloorDiv, pyRange, pyRangeDown, setup_grid, resolveVolatility, resolveSpacing, resolveBounds, widenBounds, gridPricesCore, volatilityGrid, volatilityGridRaw, appendSteps, pySort, List.insertionSort, List.orderedInsert, gridTradeSharesCalc, List.find?, List.range_succ, trivialOracles, P3run, S3st0, S3st1]
  try (split_ifs <;> simp_all <;> norm_num at *)

/-- State after day 3 of this run. -/
def S3st2 : SimState :=
  { cash := 2286800,
    position := 119700,
    trades := [{ date := 1, ttype := "买入", price := 22, quantity := 99800, amount := 2195600, profit := 0 },
               { date := 2, ttype := "买入", price := 20, quantity := 20300, amount := 406000, profit := 0 },
               { date := 3,
                 ttype := "卖出",
                 price := 21,
                 quantity := 400,
                 amount := 8400,
                 profit := (-318000 : Rat)/1201 }],
    gridPrices := [20, 2010, 4000],
    gridBuyPrices := [(0, 20)],
    gridTradeShares := [20300, 400, 300],
    prevGrid := 1,
    currentMonth := 1,
    daysSinceReset := 2,
    buyCount := 2,
    sellCount := 1,
    winCount := 1,
    curve := [{ date := 1, equity := 4880000, invested := 2195600, profit := 0 },
              { date := 2, equity := 4680400, invested := 2601600, profit := -199600 },
              { date := 3, equity := 4800500, invested := 2593200, profit := -79500 }] }

theorem S3e2 :
    dayStep P3run trivialOracles 4880000 S3st1 (2, ⟨3, 1, 21⟩) =
    S3st2 := by
  norm_num [dayStep, bumpAndReset, tradeCrossings,
    appendEquityPoint, applyReset, findGrid, sellLevelStep, buyLevelStep, adjustBuyQuantity, sellProfit, avgBuyCost, dictGet, pyInt, pyFloorDiv, pyRange, pyRangeDown, setup_grid, resolveVolatility, resolveSpacing, resolveBounds, widenBounds, gridPricesCore, volatilityGrid, volatilityGridRaw, appendSteps, pySort, List.insertionSort, List.orderedInsert, gridTradeSharesCalc, List.find?, List.range_succ, trivialOracles, P3run, S3st1, S3st2]
  try (split_ifs <;> simp_all <;> norm_num at *)

/-- State after day 4 of this run. -/
def S3st3 : SimState :=
  { cash := 1880800,
    position := 140000,
    trades := [{ date := 1, ttype := "买入", price := 22, quantity := 99800, amount := 2195600, profit := 0 },
               { date := 2, ttype := "买入", price := 20, quantity := 20300, amount := 406000, profit := 0 },
               { date := 3, ttype := "卖出", price := 21, quantity := 400, amount := 8400, profit := (-318000 : Rat)/1201 },
               { date := 4, ttype := "买入", price := 20, quantity := 20300, amount := 406000, profit := 0 }],
    gridPrices := [20, 2010, 4000],
    gridBuyPrices := [(0, 20), (0, 20)],
    gridTradeShares := [20300, 400, 300],
    prevGrid := 0,
    currentMonth := 1,
    daysSinceReset := 3,
    buyCount := 3,
    sellCount := 1,
    winCount := 1,
    curve := [{ date := 1, equity := 4880000, invested := 2195600, profit := 0 },
              { date := 2, equity := 4680400, invested := 2601600, profit := -199600 },
              { date := 3, equity := 4800500, invested := 2593200, profit := -79500 },
              { date := 4, equity := 4680800, invested := 2999200, profit := -199200 }] }

theorem S3e3 :
    dayStep P3run trivialOracles 4880000 S3st2 (3, ⟨4, 1, 20⟩) =
    S3st3 := by
  norm_num [dayStep, bumpAndReset, tradeCrossings,
    appendEquityPoint, applyReset, findGrid, sellLevelStep, buyLevelStep, adjustBuyQuantity, sellProfit, avgBuyCost, dictGet, pyInt, pyFloorDiv, pyRange, pyRangeDown, setup_grid, resolveVolatility, resolveSpacing, resolveBounds, widenBounds, gridPricesCore, volatilityGrid, volatilityGridRaw, appendSteps, pySort, List.insertionSort, List.orderedInsert, gridTradeSharesCalc, List.find?, List.range_succ, trivialOracles, P3run, S3st2, S3st3]
  try (split_ifs <;> simp_all <;> norm_num at *)

/-- State after day 5 of this run. -/
def S3st4 : SimState :=
  { cash := 1889200,
    position := 139600,
    trades := [{ date := 1, ttype := "买入", price := 22, quantity := 99800, amount := 2195600, profit := 0 },
               { date := 2, ttype := "买入", price := 20, quantity := 20300, amount := 406000, profit := 0 },
               { date := 3, ttype := "卖出", price := 21, quantity := 400, amount := 8400, profit := (-318000 : Rat)/1201 },
               { date := 4, ttype := "买入", price := 20, quantity := 20300, amount := 406000, profit := 0 },
               { date := 5, ttype := "卖出", price := 21, quantity := 400, amount := 8400, profit := (-59200 : Rat)/351 }],
    gridPrices := [20, 2010, 4000],
    gridBuyPrices := [(0, 20), (0, 20)],
    gridTradeShares := [20300, 400, 300],
    prevGrid := 1,
    currentMonth := 1,
    daysSinceReset := 4,
    buyCount := 3,
    sellCount := 2,
    winCount := 2,
    curve := [{ date := 1, equity := 4880000, invested := 2195600, profit := 0 },
              { date := 2, equity := 4680400, invested := 2601600, profit := -199600 },
              { date := 3, equity := 4800500, invested := 2593200, profit := -79500 },
              { date := 4, equity := 4680800, invested := 2999200, profit := -199200 },
              { date := 5, equity := 4820800, invested := 2990800, profit := -59200 }] }

theorem S3e4 :
    dayStep P3run trivialOracles 4880000 S3st3 (4, ⟨5, 1, 21⟩) =
    S3st4 := by
  norm_num [dayStep, bumpAndReset, tradeCrossings,
    appendEquityPoint, applyReset, findGrid, sellLevelStep, buyLevelStep, adjustBuyQuantity, sellProfit, avgBuyCost, dictGet, pyInt, pyFloorDiv, pyRange, pyRangeDown, setup_grid, resolveVolatility, resolveSpacing, resolveBounds, widenBounds, gridPricesCore, volatilityGrid, volatilityGridRaw, appendSteps, pySort, List.insertionSort, List.orderedInsert, gridTradeSharesCalc, List.find?, List.range_succ, trivialOracles, P3run, S3st3, S3st4]
  try (split_ifs <;> simp_all <;> norm_num at *)

/-- State after day 6 of this run. -/
def S3st5 : SimState :=
  { cash := 1483200,
    position := 159900,
    trades := [{ date := 1, ttype := "买入", price := 22, quantity := 99800, amount := 2195600, profit := 0 },
               { date := 2, ttype := "买入", price := 20, quantity := 20300, amount := 406000, profit := 0 },
               { date := 3, ttype := "卖出", price := 21, quantity := 400, amount := 8400, profit := (-318000 : Rat)/1201 },
               { date := 4, ttype := "买入", price := 20, quantity := 20300, amount := 406000, profit := 0 },
               { date := 5, ttype := "卖出", price := 21, quantity := 400, amount := 8400, profit := (-59200 : Rat)/351 },
               { date := 6, ttype := "买入", price := 20, quantity := 20300, amount := 406000, profit := 0 }],
    gridPrices := [20, 2010, 4000],
    gridBuyPrices := [(0, 20), (0, 20), (0, 20)],
    gridTradeShares := [20300, 400, 300],
    prevGrid := 0,
    currentMonth := 1,
    daysSinceReset := 5,
    buyCount := 4,
    sellCount := 2,
    winCount := 2,
    curve := [{ date := 1, equity := 4880000, invested := 2195600, profit := 0 },
              { date := 2, equity := 4680400, invested := 2601600, profit := -199600 },
              { date := 3, equity := 4800500, invested := 2593200, profit := -79500 },
              { date := 4, equity := 4680800, invested := 2999200, profit := -199200 },
              { date := 5, equity := 4820800, invested := 2990800, profit := -59200 },
              { date := 6, equity := 4681200, invested := 3396800, profit := -198800 }] }

theorem S3e5 :
    dayStep P3run trivialOracles 4880000 S3st4 (5, ⟨6, 1, 20⟩) =
    S3st5 := by
  norm_num [dayStep, bumpAndReset, tradeCrossings,
    appendEquityPoint, applyReset, findGrid, sellLevelStep, buyLevelStep, adjustBuyQuantity, sellProfit, avgBuyCost, dictGet, pyInt, pyFloorDiv, pyRange, pyRangeDown, setup_grid, resolveVolatility, resolveSpacing, resolveBounds, widenBounds, gridPricesCore, volatilityGrid, volatilityGridRaw, appendSteps, pySort, List.insertionSort, List.orderedInsert, gridTradeSharesCalc, List.find?, List.range_succ, trivialOracles, P3run, S3st4, S3st5]
  try (split_ifs <;> simp_all <;> norm_num at *)

/-- State after day 7 of this run. -/
def S3st6 : SimState :=
  { cash := 1491600,
    position := 159500,
    trades := [{ date := 1, ttype := "买入", price := 22, quantity := 99800, amount := 2195600, profit := 0 },
               { date := 2, ttype := "买入", price := 20, quantity := 20300, amount := 406000, profit := 0 },
               { date := 3, ttype := "卖出", price := 21, quantity := 400, amount := 8400, profit := (-318000 : Rat)/1201 },
               { date := 4, ttype := "买入", price := 20, quantity := 20300, amount := 406000, profit := 0 },
               { date := 5, ttype := "卖出", price := 21, quantity := 400, amount := 8400, profit := (-59200 : Rat)/351 },
               { date := 6, ttype := "买入", price := 20, quantity := 20300, amount := 406000, profit := 0 },
               { date := 7,
                 ttype := "卖出",
                 price := 21,
                 quantity := 400,
                 amount := 8400,
                 profit := (-155600 : Rat)/1607 }],
    gridPrices := [20, 2010, 4000],
    gridBuyPrices := [(0, 20), (0, 20), (0, 20)],
    gridTradeShares := [20300, 400, 300],
    prevGrid := 1,
    currentMonth := 1,
    daysSinceReset := 6,
    buyCount := 4,
    sellCount := 3,
    winCount := 3,
    curve := [{ date := 1, equity := 4880000, invested := 2195600, profit := 0 },
              { date := 2, equity := 4680400, invested := 2601600, profit := -199600 },
              { date := 3, equity := 4800500, invested := 2593200, profit := -79500 },
              { date := 4, equity := 4680800, invested := 2999200, profit := -199200 },
              { date := 5, equity := 4820800, invested := 2990800, profit := -59200 },
              { date := 6, equity := 4681200, invested := 3396800, profit := -198800 },
              { date := 7, equity := 4841100, invested := 3388400, profit := -38900 }] }

theorem S3e6 :
    dayStep P3run trivialOracles 4880000 S3st5 (6, ⟨7, 1, 21⟩) =
    S3st6 := by
  norm_num [dayStep, bumpAndReset, tradeCrossings,
    appendEquityPoint, applyReset, findGrid, sellLevelStep, buyLevelStep, adjustBuyQuantity, sellProfit, avgBuyCost, dictGet, pyInt, pyFloorDiv, pyRange, pyRangeDown, setup_grid, resolveVolatility, resolveSpacing, resolveBounds, widenBounds, gridPricesCore, volatilityGrid, volatilityGridRaw, appendSteps, pySort, List.insertionSort, List.orderedInsert, gridTradeSharesCalc, List.find?, List.range_succ, trivialOracles, P3run, S3st5, S3st6]
  try (split_ifs <;> simp_all <;> norm_num at *)

/-- State after day 8 of this run. -/
def S3st7 : SimState :=
  { cash := 1085600,
    position := 179800,
    trades := [{ date := 1, ttype := "买入", price := 22, quantity := 99800, amount := 2195600, profit := 0 },
               { date := 2, ttype := "买入", price := 20, quantity := 20300, amount := 406000, profit := 0 },
               { date := 3, ttype := "卖出", price := 21, quantity := 400, amount := 8400, profit := (-318000 : Rat)/1201 },
               { date := 4, ttype := "买入", price := 20, quantity := 20300, amount := 406000, profit := 0 },
               { date := 5, ttype := "卖出", price := 21, quantity := 400, amount := 8400, profit := (-59200 : Rat)/351 },
               { date := 6, ttype := "买入", price := 20, quantity := 20300, amount := 406000, profit := 0 },
               { date := 7, ttype := "卖出", price := 21, quantity := 400, amount := 8400, profit := (-155600 : Rat)/1607 },
               { date := 8, ttype := "买入", price := 20, quantity := 20300, amount := 406000, profit := 0 }],
    gridPrices := [20, 2010, 4000],
    gridBuyPrices := [(0, 20), (0, 20), (0, 20), (0, 20)],
    gridTradeShares := [20300, 400, 300],
    prevGrid := 0,
    currentMonth := 1,
    daysSinceReset := 7,
    buyCount := 5,
    sellCount := 3,
    winCount := 3,
    curve := [{ date := 1, equity := 4880000, invested := 2195600, profit := 0 },
              { date := 2, equity := 4680400, invested := 2601600, profit := -199600 },
              { date := 3, equity := 4800500, invested := 2593200, profit := -79500 },
              { date := 4, equity := 4680800, invested := 2999200, profit := -199200 },
              { date := 5, equity := 4820800, invested := 2990800, profit := -59200 },
              { date := 6, equity := 4681200, invested := 3396800, profit := -198800 },
              { date := 7, equity := 4841100, invested := 3388400, profit := -38900 },
              { date := 8, equity := 4681600, invested := 3794400, profit := -198400 }] }

theorem S3e7 :
    dayStep P3run trivialOracles 4880000 S3st6 (7, ⟨8, 1, 20⟩) =
    S3st7 := by
  norm_num [dayStep, bumpAndReset, tradeCrossings,
    appendEquityPoint, applyReset, findGrid, sellLevelStep, buyLevelStep, adjustBuyQuantity, sellProfit, avgBuyCost, dictGet, pyInt, pyFloorDiv, pyRange, pyRangeDown, setup_grid, resolveVolatility, resolveSpacing, resolveBounds, widenBounds, gridPricesCore, volatilityGrid, volatilityGridRaw, appendSteps, pySort, List.insertionSort, List.orderedInsert, gridTradeSharesCalc, List.find?, List.range_succ, trivialOracles, P3run, S3st6, S3st7]
  try (split_ifs <;> simp_all <;> norm_num at *)

/-- State after day 9 of this run. -/
def S3st8 : SimState :=
  { cash := 1094000,
    position := 179400,
    trades := [{ date := 1, ttype := "买入", price := 22, quantity := 99800, amount := 2195600, profit := 0 },
               { date := 2, ttype := "买入", price := 20, quantity := 20300, amount := 406000, profit := 0 },
               { date := 3, ttype := "卖出", price := 21, quantity := 400, amount := 8400, profit := (-318000 : Rat)/1201 },
               { date := 4, ttype := "买入", price := 20, quantity := 20300, amount := 406000, profit := 0 },
               { date := 5, ttype := "卖出", price := 21, quantity := 400, amount := 8400, profit := (-59200 : Rat)/351 },
               { date := 6, ttype := "买入", price := 20, quantity := 20300, amount := 406000, profit := 0 },
               { date := 7, ttype := "卖出", price := 21, quantity := 400, amount := 8400, profit := (-155600 : Rat)/1607 },
               { date := 8, ttype := "买入", price := 20, quantity := 20300, amount := 406000, profit := 0 },
               { date := 9, ttype := "卖出", price := 21, quantity := 400, amount := 8400, profit := (-7440 : Rat)/181 }],
    gridPrices := [20, 2010, 4000],
    gridBuyPrices := [(0, 20), (0, 20), (0, 20), (0, 20)],
    gridTradeShares := [20300, 400, 300],
    prevGrid := 1,
    currentMonth := 1,
    daysSinceReset := 8,
    buyCount := 5,
    sellCount := 4,
    winCount := 4,
    curve := [{ date := 1, equity := 4880000, invested := 2195600, profit := 0 },
              { date := 2, equity := 4680400, invested := 2601600, profit := -199600 },
              { date := 3, equity := 4800500, invested := 2593200, profit := -79500 },
              { date := 4, equity := 4680800, invested := 2999200, profit := -199200 },
              { date := 5, equity := 4820800, invested := 2990800, profit := -59200 },
              { date := 6, equity := 4681200, invested := 3396800, profit := -198800 },
              { date := 7, equity := 4841100, invested := 3388400, profit := -38900 },
              { date := 8, equity := 4681600, invested := 3794400, profit := -198400 },
              { date := 9, equity := 4861400, invested := 3786000, profit := -18600 }] }

theorem S3e8 :
    dayStep P3run trivialOracles 4880000 S3st7 (8, ⟨9, 1, 21⟩) =
    S3st8 := by
  norm_num [dayStep, bumpAndReset, tradeCrossings,
    appendEquityPoint, applyReset, findGrid, sellLevelStep, buyLevelStep, adjustBuyQuantity, sellProfit, avgBuyCost, dictGet, pyInt, pyFloorDiv, pyRange, pyRangeDown, setup_grid, resolveVolatility, resolveSpacing, resolveBounds, widenBounds, gridPricesCore, volatilityGrid, volatilityGridRaw, appendSteps, pySort, List.insertionSort, List.orderedInsert, gridTradeSharesCalc, List.find?, List.range_succ, trivialOracles, P3run, S3st7, S3st8]
  try (split_ifs <;> simp_all <;> norm_num at *)

/-- State after day 10 of this run. -/
def S3st9 : SimState :=
  { cash := 688000,
    position := 199700,
    trades := [{ date := 1, ttype := "买入", price := 22, quantity := 99800, amount := 2195600, profit := 0 },
               { date := 2, ttype := "买入", price := 20, quantity := 20300, amount := 406000, profit := 0 },
               { date := 3, ttype := "卖出", price := 21, quantity := 400, amount := 8400, profit := (-318000 : Rat)/1201 },
               { date := 4, ttype := "买入", price := 20, quantity := 20300, amount := 406000, profit := 0 },
               { date := 5, ttype := "卖出", price := 21, quantity := 400, amount := 8400, profit := (-59200 : Rat)/351 },
               { date := 6, ttype := "买入", price := 20, quantity := 20300, amount := 406000, profit := 0 },
               { date := 7, ttype := "卖出", price := 21, quantity := 400, amount := 8400, profit := (-155600 : Rat)/1607 },
               { date := 8, ttype := "买入", price := 20, quantity := 20300, amount := 406000, profit := 0 },
               { date := 9, ttype := "卖出", price := 21, quantity := 400, amount := 8400, profit := (-7440 : Rat)/181 },
               { date := 10, ttype := "买入", price := 20, quantity := 20300, amount := 406000, profit := 0 }],
    gridPrices := [20, 2010, 4000],
    gridBuyPrices := [(0, 20), (0, 20), (0, 20), (0, 20), (0, 20)],
    gridTradeShares := [20300, 400, 300],
    prevGrid := 0,
    currentMonth := 1,
    daysSinceReset := 9,
    buyCount := 6,
    sellCount := 4,
    winCount := 4,
    curve := [{ date := 1, equity := 4880000, invested := 2195600, profit := 0 },
              { date := 2, equity := 4680400, invested := 2601600, profit := -199600 },
              { date := 3, equity := 4800500, invested := 2593200, profit := -79500 },
              { date := 4, equity := 4680800, invested := 2999200, profit := -199200 },
              { date := 5, equity := 4820800, invested := 2990800, profit := -59200 },
              { date := 6, equity := 4681200, invested := 3396800, profit := -198800 },
              { date := 7, equity := 4841100, invested := 3388400, profit := -38900 },
              { date := 8, equity := 4681600, invested := 3794400, profit := -198400 },
              { date := 9, equity := 4861400, invested := 3786000, profit := -18600 },
              { date := 10, equity := 4682000, invested := 4192000, profit := -198000 }] }

theorem S3e9 :
    dayStep P3run trivialOracles 4880000 S3st8 (9, ⟨10, 1, 20⟩) =
    S3st9 := by
  norm_num [dayStep, bumpAndReset, tradeCrossings,
    appendEquityPoint, applyReset, findGrid, sellLevelStep, buyLevelStep, adjustBuyQuantity, sellProfit, avgBuyCost, dictGet, pyInt, pyFloorDiv, pyRange, pyRangeDown, setup_grid, resolveVolatility, resolveSpacing, resolveBounds, widenBounds, gridPricesCore, volatilityGrid, volatilityGridRaw, appendSteps, pySort, List.insertionSort, List.orderedInsert, gridTradeSharesCalc, List.find?, List.range_succ, trivialOracles, P3run, S3st8, S3st9]
  try (split_ifs <;> simp_all <;> norm_num at *)

/-- State after day 11 of this run. -/
def S3st10 : SimState :=
  { cash := 696400,
    position := 199300,
    trades := [{ date := 1, ttype := "买入", price := 22, quantity := 99800, amount := 2195600, profit := 0 },
               { date := 2, ttype := "买入", price := 20, quantity := 20300, amount := 406000, profit := 0 },
               { date := 3, ttype := "卖出", price := 21, quantity := 400, amount := 8400, profit := (-318000 : Rat)/1201 },
               { date := 4, ttype := "买入", price := 20, quantity := 20300, amount := 406000, profit := 0 },
               { date := 5, ttype := "卖出", price := 21, quantity := 400, amount := 8400, profit := (-59200 : Rat)/351 },
               { date := 6, ttype := "买入", price := 20, quantity := 20300, amount := 406000, profit := 0 },
               { date := 7, ttype := "卖出", price := 21, quantity := 400, amount := 8400, profit := (-155600 : Rat)/1607 },
               { date := 8, ttype := "买入", price := 20, quantity := 20300, amount := 406000, profit := 0 },
               { date := 9, ttype := "卖出", price := 21, quantity := 400, amount := 8400, profit := (-7440 : Rat)/181 },
               { date := 10, ttype := "买入", price := 20, quantity := 20300, amount := 406000, profit := 0 },
               { date := 11, ttype := "卖出", price := 21, quantity := 400, amount := 8400, profit := (6800 : Rat)/2013 }],
    gridPrices := [20, 2010, 4000],
    gridBuyPrices := [(0, 20), (0, 20), (0, 20), (0, 20), (0, 20)],
    gridTradeShares := [20300, 400, 300],
    prevGrid := 1,
    currentMonth := 1,
    daysSinceReset := 10,
    buyCount := 6,
    sellCount := 5,
    winCount := 5,
    curve := [{ date := 1, equity := 4880000, invested := 2195600, profit := 0 },
              { date := 2, equity := 4680400, invested := 2601600, profit := -199600 },
              { date := 3, equity := 4800500, invested := 2593200, profit := -79500 },
              { date := 4, equity := 4680800, invested := 2999200, profit := -199200 },
              { date := 5, equity := 4820800, invested := 2990800, profit := -59200 },
              { date := 6, equity := 4681200, invested := 3396800, profit := -198800 },
              { date := 7, equity := 4841100, invested := 3388400, profit := -38900 },
              { date := 8, equity := 4681600, invested := 3794400, profit := -198400 },
              { date := 9, equity := 4861400, invested := 3786000, profit := -18600 },
              { date := 10, equity := 4682000, invested := 4192000, profit := -198000 },
              { date := 11, equity := 4881700, invested := 4183600, profit := 1700 }] }

theorem S3e10 :
    dayStep P3run trivialOracles 4880000 S3st9 (10, ⟨11, 1, 21⟩) =
    S3st10 := by
  norm_num [dayStep, bumpAndReset, tradeCrossings,
    appendEquityPoint, applyReset, findGrid, sellLevelStep, buyLevelStep, adjustBuyQuantity, sellProfit, avgBuyCost, dictGet, pyInt, pyFloorDiv, pyRange, pyRangeDown, setup_grid, resolveVolatility, resolveSpacing, resolveBounds, widenBounds, gridPricesCore, volatilityGrid, volatilityGridRaw, appendSteps, pySort, List.insertionSort, List.orderedInsert, gridTradeSharesCalc, List.find?, List.range_succ, trivialOracles, P3run, S3st9, S3st10]
  try (split_ifs <;> simp_all <;> norm_num at *)

/-- State after day 12 of this run. -/
def S3st11 : SimState :=
  { cash := 290400,
    position := 219600,
    trades := [{ date := 1, ttype := "买入", price := 22, quantity := 99800, amount := 2195600, profit := 0 },
               { date := 2, ttype := "买入", price := 20, quantity := 20300, amount := 406000, profit := 0 },
               { date := 3, ttype := "卖出", price := 21, quantity := 400, amount := 8400, profit := (-318000 : Rat)/1201 },
               { date := 4, ttype := "买入", price := 20, quantity := 20300, amount := 406000, profit := 0 },
               { date := 5, ttype := "卖出", price := 21, quantity := 400, amount := 8400, profit := (-59200 : Rat)/351 },
               { date := 6, ttype := "买入", price := 20, quantity := 20300, amount := 406000, profit := 0 },
               { date := 7, ttype := "卖出", price := 21, quantity := 400, amount := 8400, profit := (-155600 : Rat)/1607 },
               { date := 8, ttype := "买入", price := 20, quantity := 20300, amount := 406000, profit := 0 },
               { date := 9, ttype := "卖出", price := 21, quantity := 400, amount := 8400, profit := (-7440 : Rat)/181 },
               { date := 10, ttype := "买入", price := 20, quantity := 20300, amount := 406000, profit := 0 },
               { date := 11, ttype := "卖出", price := 21, quantity := 400, amount := 8400, profit := (6800 : Rat)/2013 },
               { date := 12, ttype := "买入", price := 20, quantity := 20300, amount := 406000, profit := 0 }],
    gridPrices := [20, 2010, 4000],
    gridBuyPrices := [(0, 20), (0, 20), (0, 20), (0, 20), (0, 20), (0, 20)],
    gridTradeShares := [20300, 400, 300],
    prevGrid := 0,
    currentMonth := 1,
    daysSinceReset := 11,
    buyCount := 7,
    sellCount := 5,
    winCount := 5,
    curve := [{ date := 1, equity := 4880000, invested := 2195600, profit := 0 },
              { date := 2, equity := 4680400, invested := 2601600, profit := -199600 },
              { date := 3, equity := 4800500, invested := 2593200, profit := -79500 },
              { date := 4, equity := 4680800, invested := 2999200, profit := -199200 },
              { date := 5, equity := 4820800, invested := 2990800, profit := -59200 },
              { date := 6, equity := 4681200, invested := 3396800, profit := -198800 },
              { date := 7, equity := 4841100, invested := 3388400, profit := -38900 },
              { date := 8, equity := 4681600, invested := 3794400, profit := -198400 },
              { date := 9, equity := 4861400, invested := 3786000, profit := -18600 },
              { date := 10, equity := 4682000, invested := 4192000, profit := -198000 },
              { date := 11, equity := 4881700, invested := 4183600, profit := 1700 },
              { date := 12, equity := 4682400, invested := 4589600, profit := -197600 }] }

theorem S3e11 :
    dayStep P3run trivialOracles 4880000 S3st10 (11, ⟨12, 1, 20⟩) =
    S3st11 := by
  norm_num [dayStep, bumpAndReset, tradeCrossings,
    appendEquityPoint, applyReset, findGrid, sellLevelStep, buyLevelStep, adjustBuyQuantity, sellProfit, avgBuyCost, dictGet, pyInt, pyFloorDiv, pyRange, pyRangeDown, setup_grid, resolveVolatility, resolveSpacing, resolveBounds, widenBounds, gridPricesCore, volatilityGrid, volatilityGridRaw, appendSteps, pySort, List.insertionSort, List.orderedInsert, gridTradeSharesCalc, List.find?, List.range_succ, trivialOracles, P3run, S3st10, S3st11]
  try (split_ifs <;> simp_all <;> norm_num at *)

/-- State after day 13 of this run. -/
def S3st12 : SimState :=
  { cash := 298800,
    position := 219200,
    trades := [{ date := 1, ttype := "买入", price := 22, quantity := 99800, amount := 2195600, profit := 0 },
               { date := 2, ttype := "买入", price := 20, quantity := 20300, amount := 406000, profit := 0 },
               { date := 3, ttype := "卖出", price := 21, quantity := 400, amount := 8400, profit := (-318000 : Rat)/1201 },
               { date := 4, ttype := "买入", price := 20, quantity := 20300, amount := 406000, profit := 0 },
               { date := 5, ttype := "卖出", price := 21, quantity := 400, amount := 8400, profit := (-59200 : Rat)/351 },
               { date := 6, ttype := "买入", price := 20, quantity := 20300, amount := 406000, profit := 0 },
               { date := 7, ttype := "卖出", price := 21, quantity := 400, amount := 8400, profit := (-155600 : Rat)/1607 },
               { date := 8, ttype := "买入", price := 20, quantity := 20300, amount := 406000, profit := 0 },
               { date := 9, ttype := "卖出", price := 21, quantity := 400, amount := 8400, profit := (-7440 : Rat)/181 },
               { date := 10, ttype := "买入", price := 20, quantity := 20300, amount := 406000, profit := 0 },
               { date := 11, ttype := "卖出", price := 21, quantity := 400, amount := 8400, profit := (6800 : Rat)/2013 },
               { date := 12, ttype := "买入", price := 20, quantity := 20300, amount := 406000, profit := 0 },
               { date := 13, ttype := "卖出", price := 21, quantity := 400, amount := 8400, profit := (11000 : Rat)/277 }],
    gridPrices := [20, 2010, 4000],
    gridBuyPrices := [(0, 20), (0, 20), (0, 20), (0, 20), (0, 20), (0, 20)],
    gridTradeShares := [20300, 400, 300],
    prevGrid := 1,
    currentMonth := 1,
    daysSinceReset := 12,
    buyCount := 7,
    sellCount := 6,
    winCount := 6,
    curve := [{ date := 1, equity := 4880000, invested := 2195600, profit := 0 },
              { date := 2, equity := 4680400, invested := 2601600, profit := -199600 },
              { date := 3, equity := 4800500, invested := 2593200, profit := -79500 },
              { date := 4, equity := 4680800, invested := 2999200, profit := -199200 },
              { date := 5, equity := 4820800, invested := 2990800, profit := -59200 },
              { date := 6, equity := 4681200, invested := 3396800, profit := -198800 },
              { date := 7, equity := 4841100, invested := 3388400, profit := -38900 },
              { date := 8, equity := 4681600, invested := 3794400, profit := -198400 },
              { date := 9, equity := 4861400, invested := 3786000, profit := -18600 },
              { date := 10, equity := 4682000, invested := 4192000, profit := -198000 },
              { date := 11, equity := 4881700, invested := 4183600, profit := 1700 },
              { date := 12, equity := 4682400, invested := 4589600, profit := -197600 },
              { date := 13, equity := 4902000, invested := 4581200, profit := 22000 }] }

theorem S3e12 :
    dayStep P3run trivialOracles 4880000 S3st11 (12, ⟨13, 1, 21⟩) =
    S3st12 := by
  norm_num [dayStep, bumpAndReset, tradeCrossings,
    appendEquityPoint, applyReset, findGrid, sellLevelStep, buyLevelStep, adjustBuyQuantity, sellProfit, avgBuyCost, dictGet, pyInt, pyFloorDiv, pyRange, pyRangeDown, setup_grid, resolveVolatility, resolveSpacing, resolveBounds, widenBounds, gridPricesCore, volatilityGrid, volatilityGridRaw, appendSteps, pySort, List.insertionSort, List.orderedInsert, gridTradeSharesCalc, List.find?, List.range_succ, trivialOracles, P3run, S3st11, S3st12]
  try (split_ifs <;> simp_all <;> norm_num at *)

/-- State after day 14 of this run. -/
def S3st13 : SimState :=
  { cash := 800,
    position := 234100,
    trades := [{ date := 1, ttype := "买入", price := 22, quantity := 99800, amount := 2195600, profit := 0 },
               { date := 2, ttype := "买入", price := 20, quantity := 20300, amount := 406000, profit := 0 },
               { date := 3, ttype := "卖出", price := 21, quantity := 400, amount := 8400, profit := (-318000 : Rat)/1201 },
               { date := 4, ttype := "买入", price := 20, quantity := 20300, amount := 406000, profit := 0 },
               { date := 5, ttype := "卖出", price := 21, quantity := 400, amount := 8400, profit := (-59200 : Rat)/351 },
               { date := 6, ttype := "买入", price := 20, quantity := 20300, amount := 406000, profit := 0 },
               { date := 7, ttype := "卖出", price := 21, quantity := 400, amount := 8400, profit := (-155600 : Rat)/1607 },
               { date := 8, ttype := "买入", price := 20, quantity := 20300, amount := 406000, profit := 0 },
               { date := 9, ttype := "卖出", price := 21, quantity := 400, amount := 8400, profit := (-7440 : Rat)/181 },
               { date := 10, ttype := "买入", price := 20, quantity := 20300, amount := 406000, profit := 0 },
               { date := 11, ttype := "卖出", price := 21, quantity := 400, amount := 8400, profit := (6800 : Rat)/2013 },
               { date := 12, ttype := "买入", price := 20, quantity := 20300, amount := 406000, profit := 0 },
               { date := 13, ttype := "卖出", price := 21, quantity := 400, amount := 8400, profit := (11000 : Rat)/277 },
               { date := 14, ttype := "买入", price := 20, quantity := 14900, amount := 298000, profit := 0 }],
    gridPrices := [20, 2010, 4000],
    gridBuyPrices := [(0, 20), (0, 20), (0, 20), (0, 20), (0, 20), (0, 20), (0, 20)],
    gridTradeShares := [20300, 400, 300],
    prevGrid := 0,
    currentMonth := 1,
    daysSinceReset := 13,
    buyCount := 8,
    sellCount := 6,
    winCount := 6,
    curve := [{ date := 1, equity := 4880000, invested := 2195600, profit := 0 },
              { date := 2, equity := 4680400, invested := 2601600, profit := -199600 },
              { date := 3, equity := 4800500, invested := 2593200, profit := -79500 },
              { date := 4, equity := 4680800, invested := 2999200, profit := -199200 },
              { date := 5, equity := 4820800, invested := 2990800, profit := -59200 },
              { date := 6, equity := 4681200, invested := 3396800, profit := -198800 },
              { date := 7, equity := 4841100, invested := 3388400, profit := -38900 },
              { date := 8, equity := 4681600, invested := 3794400, profit := -198400 },
              { date := 9, equity := 4861400, invested := 3786000, profit := -18600 },
              { date := 10, equity := 4682000, invested := 4192000, profit := -198000 },
              { date := 11, equity := 4881700, invested := 4183600, profit := 1700 },
              { date := 12, equity := 4682400, invested := 4589600, profit := -197600 },
              { date := 13, equity := 4902000, invested := 4581200, profit := 22000 },
              { date := 14, equity := 4682800, invested := 4879200, profit := -197200 }] }

theorem S3e13 :
    dayStep P3run trivialOracles 4880000 S3st12 (13, ⟨14, 1, 20⟩) =
    S3st13 := by
  norm_num [dayStep, bumpAndReset, tradeCrossings,
    appendEquityPoint, applyReset, findGrid, sellLevelStep, buyLevelStep, adjustBuyQuantity, sellProfit, avgBuyCost, dictGet, pyInt, pyFloorDiv, pyRange, pyRangeDown, setup_grid, resolveVolatility, resolveSpacing, resolveBounds, widenBounds, gridPricesCore, volatilityGrid, volatilityGridRaw, appendSteps, pySort, List.insertionSort, List.orderedInsert, gridTradeSharesCalc, List.find?, List.range_succ, trivialOracles, P3run, S3st12, S3st13]
  try (split_ifs <;> simp_all <;> norm_num at *)

/-- State after day 15 of this run. -/
def S3st14 : SimState :=
  { cash := 135600,
    position := 233700,
    trades := [{ date := 1, ttype := "买入", price := 22, quantity := 99800, amount := 2195600, profit := 0 },
               { date := 2, ttype := "买入", price := 20, quantity := 20300, amount := 406000, profit := 0 },
               { date := 3, ttype := "卖出", price := 21, quantity := 400, amount := 8400, profit := (-318000 : Rat)/1201 },
               { date := 4, ttype := "买入", price := 20, quantity := 20300, amount := 406000, profit := 0 },
               { date := 5, ttype := "卖出", price := 21, quantity := 400, amount := 8400, profit := (-59200 : Rat)/351 },
               { date := 6, ttype := "买入", price := 20, quantity := 20300, amount := 406000, profit := 0 },
               { date := 7, ttype := "卖出", price := 21, quantity := 400, amount := 8400, profit := (-155600 : Rat)/1607 },
               { date := 8, ttype := "买入", price := 20, quantity := 20300, amount := 406000, profit := 0 },
               { date := 9, ttype := "卖出", price := 21, quantity := 400, amount := 8400, profit := (-7440 : Rat)/181 },
               { date := 10, ttype := "买入", price := 20, quantity := 20300, amount := 406000, profit := 0 },
               { date := 11, ttype := "卖出", price := 21, quantity := 400, amount := 8400, profit := (6800 : Rat)/2013 },
               { date := 12, ttype := "买入", price := 20, quantity := 20300, amount := 406000, profit := 0 },
               { date := 13, ttype := "卖出", price := 21, quantity := 400, amount := 8400, profit := (11000 : Rat)/277 },
               { date := 14, ttype := "买入", price := 20, quantity := 14900, amount := 298000, profit := 0 },
               { date := 15, ttype := "卖出", price := 337, quantity := 400, amount := 134800, profit := 26960 }],
    gridPrices := [20, 2010, 4000],
    gridBuyPrices := [(0, 20), (0, 20), (0, 20), (0, 20), (0, 20), (0, 20), (0, 20)],
    gridTradeShares := [20300, 400, 300],
    prevGrid := 1,
    currentMonth := 1,
    daysSinceReset := 14,
    buyCount := 8,
    sellCount := 7,
    winCount := 7,
    curve := [{ date := 1, equity := 4880000, invested := 2195600, profit := 0 },
              { date := 2, equity := 4680400, invested := 2601600, profit := -199600 },
              { date := 3, equity := 4800500, invested := 2593200, profit := -79500 },
              { date := 4, equity := 4680800, invested := 2999200, profit := -199200 },
              { date := 5, equity := 4820800, invested := 2990800, profit := -59200 },
              { date := 6, equity := 4681200, invested := 3396800, profit := -198800 },
              { date := 7, equity := 4841100, invested := 3388400, profit := -38900 },
              { date := 8, equity := 4681600, invested := 3794400, profit := -198400 },
              { date := 9, equity := 4861400, invested := 3786000, profit := -18600 },
              { date := 10, equity := 4682000, invested := 4192000, profit := -198000 },
              { date := 11, equity := 4881700, invested := 4183600, profit := 1700 },
              { date := 12, equity := 4682400, invested := 4589600, profit := -197600 },
              { date := 13, equity := 4902000, invested := 4581200, profit := 22000 },
              { date := 14, equity := 4682800, invested := 4879200, profit := -197200 },
              { date := 15, equity := 78892500, invested := 4744400, profit := 74012500 }] }

theorem S3e14 :
    dayStep P3run trivialOracles 4880000 S3st13 (14, ⟨15, 1, 337⟩) =
    S3st14 := by
  norm_num [dayStep, bumpAndReset, tradeCrossings,
    appendEquityPoint, applyReset, findGrid, sellLevelStep, buyLevelStep, adjustBuyQuantity, sellProfit, avgBuyCost, dictGet, pyInt, pyFloorDiv, pyRange, pyRangeDown, setup_grid, resolveVolatility, resolveSpacing, resolveBounds, widenBounds, gridPricesCore, volatilityGrid, volatilityGridRaw, appendSteps, pySort, List.insertionSort, List.orderedInsert, gridTradeSharesCalc, List.find?, List.range_succ, trivialOracles, P3run, S3st13, S3st14]
  try (split_ifs <;> simp_all <;> norm_num at *)

/-- State after day 16 of this run. -/
def S3st15 : SimState :=
  { cash := 280,
    position := 240466,
    trades := [{ date := 1, ttype := "买入", price := 22, quantity := 99800, amount := 2195600, profit := 0 },
               { date := 2, ttype := "买入", price := 20, quantity := 20300, amount := 406000, profit := 0 },
               { date := 3, ttype := "卖出", price := 21, quantity := 400, amount := 8400, profit := (-318000 : Rat)/1201 },
               { date := 4, ttype := "买入", price := 20, quantity := 20300, amount := 406000, profit := 0 },
               { date := 5, ttype := "卖出", price := 21, quantity := 400, amount := 8400, profit := (-59200 : Rat)/351 },
               { date := 6, ttype := "买入", price := 20, quantity := 20300, amount := 406000, profit := 0 },
               { date := 7, ttype := "卖出", price := 21, quantity := 400, amount := 8400, profit := (-155600 : Rat)/1607 },
               { date := 8, ttype := "买入", price := 20, quantity := 20300, amount := 406000, profit := 0 },
               { date := 9, ttype := "卖出", price := 21, quantity := 400, amount := 8400, profit := (-7440 : Rat)/181 },
               { date := 10, ttype := "买入", price := 20, quantity := 20300, amount := 406000, profit := 0 },
               { date := 11, ttype := "卖出", price := 21, quantity := 400, amount := 8400, profit := (6800 : Rat)/2013 },
               { date := 12, ttype := "买入", price := 20, quantity := 20300, amount := 406000, profit := 0 },
               { date := 13, ttype := "卖出", price := 21, quantity := 400, amount := 8400, profit := (11000 : Rat)/277 },
               { date := 14, ttype := "买入", price := 20, quantity := 14900, amount := 298000, profit := 0 },
               { date := 15, ttype := "卖出", price := 337, quantity := 400, amount := 134800, profit := 26960 },
               { date := 16, ttype := "买入", price := 20, quantity := 6766, amount := 135320, profit := 0 }],
    gridPrices := [20, 2010, 4000],
    gridBuyPrices := [(0, 20), (0, 20), (0, 20), (0, 20), (0, 20), (0, 20), (0, 20), (0, 20)],
    gridTradeShares := [20300, 400, 300],
    prevGrid := 0,
    currentMonth := 1,
    daysSinceReset := 15,
    buyCount := 9,
    sellCount := 7,
    winCount := 7,
    curve := [{ date := 1, equity := 4880000, invested := 2195600, profit := 0 },
              { date := 2, equity := 4680400, invested := 2601600, profit := -199600 },
              { date := 3, equity := 4800500, invested := 2593200, profit := -79500 },
              { date := 4, equity := 4680800, invested := 2999200, profit := -199200 },
              { date := 5, equity := 4820800, invested := 2990800, profit := -59200 },
              { date := 6, equity := 4681200, invested := 3396800, profit := -198800 },
              { date := 7, equity := 4841100, invested := 3388400, profit := -38900 },
              { date := 8, equity := 4681600, invested := 3794400, profit := -198400 },
              { date := 9, equity := 4861400, invested := 3786000, profit := -18600 },
              { date := 10, equity := 4682000, invested := 4192000, profit := -198000 },
              { date := 11, equity := 4881700, invested := 4183600, profit := 1700 },
              { date := 12, equity := 4682400, invested := 4589600, profit := -197600 },
              { date := 13, equity := 4902000, invested := 4581200, profit := 22000 },
              { date := 14, equity := 4682800, invested := 4879200, profit := -197200 },
              { date := 15, equity := 78892500, invested := 4744400, profit := 74012500 },
              { date := 16, equity := 4809600, invested := 4879720, profit := -70400 }] }

theorem S3e15 :
    dayStep P3run trivialOracles 4880000 S3st14 (15, ⟨16, 1, 20⟩) =
    S3st15 := by
  norm_num [dayStep, bumpAndReset, tradeCrossings,
    appendEquityPoint, applyReset, findGrid, sellLevelStep, buyLevelStep, adjustBuyQuantity, sellProfit, avgBuyCost, dictGet, pyInt, pyFloorDiv, pyRange, pyRangeDown, setup_grid, resolveVolatility, resolveSpacing, resolveBounds, widenBounds, gridPricesCore, volatilityGrid, volatilityGridRaw, appendSteps, pySort, List.insertionSort, List.orderedInsert, gridTradeSharesCalc, List.find?, List.range_succ, trivialOracles, P3run, S3st14, S3st15]
  try (split_ifs <;> simp_all <;> norm_num at *)

theorem run3_loop :
    runLoop P3run trivialOracles 4880000 S3st0 (enumTail days3) =
    S3st15 := by
  rw [enum3_eval, runLoop]
  rw [List.foldl_cons, S3e1, List.foldl_cons, S3e2, List.foldl_cons, S3e3, List.foldl_cons, S3e4, List.foldl_cons, S3e5, List.foldl_cons, S3e6, List.foldl_cons, S3e7, List.foldl_cons, S3e8, List.foldl_cons, S3e9, List.foldl_cons, S3e10, List.foldl_cons, S3e11, List.foldl_cons, S3e12, List.foldl_cons, S3e13, List.foldl_cons, S3e14, List.foldl_cons, S3e15, List.foldl_nil]

/-- State after the forced close-out at the end of this run. -/
def S3fin : SimState :=
  { cash := 4809600,
    position := 0,
    trades := [{ date := 1, ttype := "买入", price := 22, quantity := 99800, amount := 2195600, profit := 0 },
               { date := 2, ttype := "买入", price := 20, quantity := 20300, amount := 406000, profit := 0 },
               { date := 3, ttype := "卖出", price := 21, quantity := 400, amount := 8400, profit := (-318000 : Rat)/1201 },
               { date := 4, ttype := "买入", price := 20, quantity := 20300, amount := 406000, profit := 0 },
               { date := 5, ttype := "卖出", price := 21, quantity := 400, amount := 8400, profit := (-59200 : Rat)/351 },
               { date := 6, ttype := "买入", price := 20, quantity := 20300, amount := 406000, profit := 0 },
               { date := 7, ttype := "卖出", price := 21, quantity := 400, amount := 8400, profit := (-155600 : Rat)/1607 },
               { date := 8, ttype := "买入", price := 20, quantity := 20300, amount := 406000, profit := 0 },
               { date := 9, ttype := "卖出", price := 21, quantity := 400, amount := 8400, profit := (-7440 : Rat)/181 },
               { date := 10, ttype := "买入", price := 20, quantity := 20300, amount := 406000, profit := 0 },
               { date := 11, ttype := "卖出", price := 21, quantity := 400, amount := 8400, profit := (6800 : Rat)/2013 },
               { date := 12, ttype := "买入", price := 20, quantity := 20300, amount := 406000, profit := 0 },
               { date := 13, ttype := "卖出", price := 21, quantity := 400, amount := 8400, profit := (11000 : Rat)/277 },
               { date := 14, ttype := "买入", price := 20, quantity := 14900, amount := 298000, profit := 0 },
               { date := 15, ttype := "卖出", price := 337, quantity := 400, amount := 134800, profit := 26960 },
               { date := 16, ttype := "买入", price := 20, quantity := 6766, amount := 135320, profit := 0 },
               { date := 16,
                 ttype := "卖出(平仓)",
                 price := 20,
                 quantity := 240466,
                 amount := 4809320,
                 profit := (-23998506800 : Rat)/121633 }],
    gridPrices := [20, 2010, 4000],
    gridBuyPrices := [(0, 20), (0, 20), (0, 20), (0, 20), (0, 20), (0, 20), (0, 20), (0, 20)],
    gridTradeShares := [20300, 400, 300],
    prevGrid := 0,
    currentMonth := 1,
    daysSinceReset := 15,
    buyCount := 9,
    sellCount := 8,
    winCount := 7,
    curve := [{ date := 1, equity := 4880000, invested := 2195600, profit := 0 },
              { date := 2, equity := 4680400, invested := 2601600, profit := -199600 },
              { date := 3, equity := 4800500, invested := 2593200, profit := -79500 },
              { date := 4, equity := 4680800, invested := 2999200, profit := -199200 },
              { date := 5, equity := 4820800, invested := 2990800, profit := -59200 },
              { date := 6, equity := 4681200, invested := 3396800, profit := -198800 },
              { date := 7, equity := 4841100, invested := 3388400, profit := -38900 },
              { date := 8, equity := 4681600, invested := 3794400, profit := -198400 },
              { date := 9, equity := 4861400, invested := 3786000, profit := -18600 },
              { date := 10, equity := 4682000, invested := 4192000, profit := -198000 },
              { date := 11, equity := 4881700, invested := 4183600, profit := 1700 },
              { date := 12, equity := 4682400, invested := 4589600, profit := -197600 },
              { date := 13, equity := 4902000, invested := 4581200, profit := 22000 },
              { date := 14, equity := 4682800, invested := 4879200, profit := -197200 },
              { date := 15, equity := 78892500, invested := 4744400, profit := 74012500 },
              { date := 16, equity := 4809600, invested := 0, profit := -70400 }] }

/-- The full simulation of the sixteen-day run: on day 16 the insufficient-cash floor max(planned // 3, 100) buys 6766 shares, not a lot multiple. -/
theorem run3_final :
    finalState P3run trivialOracles 4880000 days3 = S3fin := by
  simp only [finalState]
  rw [S3e0, run3_loop]
  norm_num [closeOut, sellProfit, avgBuyCost, pyInt, days3,
    S3st15, S3fin]
  try (split_ifs <;> simp_all <;> norm_num at *)

/-- Arithmetic grid over bounds (110, 10) with 5 levels. -/
def P8run : BtParams := ⟨5, "arithmetic", some (1/5), some (1/40), some 110, some 10⟩

/-- Ten trading days in one month: 100 then flat at 84; the only
downward crossing finds cash 8000 < 8400 and executes nothing. -/
def series8 : List RawDay := mkSeries ([100, 84] ++ List.replicate 8 84)

/-- The day list of `series8` after `dropna`. -/
def days8 : List Day := [⟨1, 1, 100⟩, ⟨2, 1, 84⟩, ⟨3, 1, 84⟩, ⟨4, 1, 84⟩, ⟨5, 1, 84⟩, ⟨6, 1, 84⟩, ⟨7, 1, 84⟩, ⟨8, 1, 84⟩, ⟨9, 1, 84⟩, ⟨10, 1, 84⟩]

theorem days8_eval : dropna series8 = days8 := by
  norm_num [dropna, series8, mkSeries, days8, List.enum, List.enumFrom,
    List.filterMap_cons, List.filterMap_nil, Option.map_some', Option.map_none']

theorem enum8_eval : enumTail days8 = [(1, ⟨2, 1, 84⟩), (2, ⟨3, 1, 84⟩), (3, ⟨4, 1, 84⟩), (4, ⟨5, 1, 84⟩), (5, ⟨6, 1, 84⟩), (6, ⟨7, 1, 84⟩), (7, ⟨8, 1, 84⟩), (8, ⟨9, 1, 84⟩), (9, ⟨10, 1, 84⟩)] := by
  norm_num [enumTail, days8, List.enum, List.enumFrom]

/-- State after the first-day initialization of this run. -/
def S8st0 : SimState :=
  { cash := 8000,
    position := 0,
    trades := [],
    gridPrices := [10, 35, 60, 85, 110],
    gridBuyPrices := [],
    gridTradeShares := [100, 100, 100, 100, 100],
    prevGrid := 4,
    currentMonth := 1,
    daysSinceReset := 0,
    buyCount := 0,
    sellCount := 0,
    winCount := 0,
    curve := [{ date := 1, equity := 8000, invested := 0, profit := 0 }] }

theorem S8e0 :
    initFirstDay P8run trivialOracles 8000 (days8.getD 0 ⟨0, 0, 0⟩) =
    S8st0 := by
  norm_num [initFirstDay, appendEquityPoint, setup_grid, resolveVolatility, resolveSpacing, resolveBounds, widenBounds, gridPricesCore, volatilityGrid, volatilityGridRaw, appendSteps, pySort, List.insertionSort, List.orderedInsert, gridTradeSharesCalc, findGrid, pyInt, List.find?, List.range_succ, trivialOracles, days8, P8run, S8st0]
  try (split_ifs <;> simp_all <;> norm_num at *)

/-- State after day 2 of this run. -/
def S8st1 : SimState :=
  { cash := 8000,
    position := 0,
    trades := [],
    gridPrices := [10, 35, 60, 85, 110],
    gridBuyPrices := [],
    gridTradeShares := [100, 100, 100, 100, 100],
    prevGrid := 3,
    currentMonth := 1,
    daysSinceReset := 1,
    buyCount := 0,
    sellCount := 0,
    winCount := 0,
    curve := [{ date := 1, equity := 8000, invested := 0, profit := 0 },
              { date := 2, equity := 8000, invested := 0, profit := 0 }] }

theorem S8e1 :
    dayStep P8run trivialOracles 8000 S8st0 (1, ⟨2, 1, 84⟩) =
    S8st1 := by
  norm_num [dayStep, bumpAndReset, tradeCrossings,
    appendEquityPoint, applyReset, findGrid, sellLevelStep, buyLevelStep, adjustBuyQuantity, sellProfit, avgBuyCost, dictGet, pyInt, pyFloorDiv, pyRange, pyRangeDown, setup_grid, resolveVolatility, resolveSpacing, resolveBounds, widenBounds, gridPricesCore, volatilityGrid, volatilityGridRaw, appendSteps, pySort, List.insertionSort, List.orderedInsert, gridTradeSharesCalc, List.find?, List.range_succ, trivialOracles, P8run, S8st0, S8st1]
  try (split_ifs <;> simp_all <;> norm_num at *)

theorem run8_loop :
    runLoop P8run trivialOracles 8000 S8st0
      ((enumTail days8).take 1) = S8st1 := by
  rw [enum8_eval]
  simp only [List.take_succ_cons, List.take_zero]
  rw [runLoop]
  rw [List.foldl_cons, S8e1, List.foldl_nil]

/-! ## C4: insufficient data is a structured error -/

/-- C4: for every input whose series, after dropping NaN closes, has fewer
than 10 observations (including the empty case, and hence any series whose
first price was NaN and was dropped), `backtest_single_etf` returns the
structured `{'error': ...}` result and produces no trades and no curve —
the simulation never starts. -/
theorem insufficient_data_is_structured_error
    (P : BtParams) (O : Oracles) (C : ℚ) (rows : List RawDay)
    (h : (dropna rows).length < 10) :
    ∃ msg, backtest_single_etf P O C rows = Except.error msg := by
  simp only [backtest_single_etf]
  by_cases he : (dropna rows).isEmpty = true
  · exact ⟨"no_data_in_range", by simp [he]⟩
  · exact ⟨"insufficient_data", by simp [he, h]⟩

/-- Witness for C4 at a three-day series. -/
theorem insufficient_data_is_structured_error_witness :
    (dropna (mkSeries [100, 100, 100])).length < 10 ∧
    ∃ msg, backtest_single_etf P7run trivialOracles 100000
      (mkSeries [100, 100, 100]) = Except.error msg :=
  ⟨by decide, insufficient_data_is_structured_error P7run trivialOracles
    100000 (mkSeries [100, 100, 100]) (by decide)⟩

/-! ## C2: unrecognized geometry names -/

/-- C2 (counterexample): with the unrecognized geometry name `"bogus"` the
simulation does not fail — it returns a normal successful result, so no
`InvalidGridTypeError` exists in the code. -/
theorem unknown_geometry_no_error_cex :
    ∃ r, backtest_single_etf ⟨5, "bogus", some (1/5), some (1/40), some 130,
      some 30⟩ trivialOracles 100000 series7 = Except.ok r := by
  simp only [backtest_single_etf]
  rw [days7_eval]
  have h1 : days7.isEmpty = false := by rfl
  have h2 : ¬ days7.length < 10 := by norm_num [days7]
  simp [h1, h2]

/-- C2 (amended): an unrecognized geometry name is not an error at all —
`setup_grid` treats every name other than `"arithmetic"` and `"geometric"`
exactly as the volatility-centred geometry (the `else` branch), and the
simulation proceeds normally. -/
theorem unknown_geometry_is_volatility
    (gt : String) (n : ℕ) (v sp u l : Option ℚ) (O : Oracles) (idx : ℕ)
    (p cap : ℚ) (h1 : gt ≠ "arithmetic") (h2 : gt ≠ "geometric") :
    setup_grid ⟨n, gt, v, sp, u, l⟩ O idx p cap =
      setup_grid ⟨n, "volatility", v, sp, u, l⟩ O idx p cap := by
  simp only [setup_grid, resolveVolatility, resolveSpacing, resolveBounds,
    gridTradeSharesCalc, findGrid]
  rw [gridPricesCore_volatility h1 h2,
    gridPricesCore_volatility (by decide) (by decide)]

/-- Witness for the C2 amended theorem at `gt = "bogus"`. -/
theorem unknown_geometry_is_volatility_witness :
    ("bogus" ≠ "arithmetic" ∧ "bogus" ≠ "geometric") ∧
    setup_grid ⟨5, "bogus", some (1/5), some (1/40), some 130, some 30⟩
        trivialOracles 0 100 50000 =
      setup_grid ⟨5, "volatility", some (1/5), some (1/40), some 130,
        some 30⟩ trivialOracles 0 100 50000 :=
  ⟨⟨by decide, by decide⟩, unknown_geometry_is_volatility "bogus" 5
    (some (1/5)) (some (1/40)) (some 130) (some 30) trivialOracles 0 100
    50000 (by decide) (by decide)⟩

/-! ## C7, C3, C8 counterexamples from the concrete runs -/

/-- C7 (counterexample): in the ten-day run, the day-3 sell at level 2 has
a recorded buy price (40), so its profit `(110 - 40) * 100 = 7000` is
**not** capped even though it exceeds 20% of the sale amount
(`11000 / 5 = 2200`): the cap applies only in the average-cost fallback,
refuting "in all cases". -/
theorem uncapped_matched_profit_cex :
    ∃ t ∈ (finalState P7run trivialOracles 100000 (dropna series7)).trades,
      t.ttype = "卖出" ∧ t.amount * (1/5) < t.profit := by
  rw [days7_eval, run7_final]
  refine ⟨⟨3, "卖出", 110, 100, 11000, 7000⟩, ?_, rfl, by norm_num⟩
  norm_num [S7fin]

/-- C3 (counterexample): in the sixteen-day run the day-16 buy executes
6766 shares — `max(20300 // 3, 100)` — which is not a multiple of the
100-share lot, refuting the claim that every executed order quantity is a
multiple of 100 (and with it the position-multiple invariant). -/
theorem order_not_lot_multiple_cex :
    ∃ t ∈ (finalState P3run trivialOracles 4880000 (dropna series3)).trades,
      t.ttype = "买入" ∧ t.quantity % 100 ≠ 0 := by
  rw [days3_eval, run3_final]
  refine ⟨⟨16, "买入", 20, 6766, 135320, 0⟩, ?_, rfl, by decide⟩
  norm_num [S3fin]

/-- C8 (counterexample): on day 2 of the small-capital run the price falls
from level 4 to level 3 (a downward crossing), cash 8000 cannot fund the
planned 100-share buy at 84 (8400), and — contrary to the claim that a
scaled-down buy still executes — no trade is executed at all: the reduced
quantity's cost still exceeds cash, and the source skips the buy. -/
theorem insufficient_cash_skips_buy_cex :
    ((initFirstDay P8run trivialOracles 8000
        ((dropna series8).getD 0 ⟨0, 0, 0⟩)).prevGrid = 4 ∧
      findGrid (initFirstDay P8run trivialOracles 8000
        ((dropna series8).getD 0 ⟨0, 0, 0⟩)).gridPrices
        P8run.grid_levels 84 = 3 ∧
      (initFirstDay P8run trivialOracles 8000
        ((dropna series8).getD 0 ⟨0, 0, 0⟩)).cash <
        (((initFirstDay P8run trivialOracles 8000
          ((dropna series8).getD 0 ⟨0, 0, 0⟩)).gridTradeShares.getD 3 0 :
          ℤ) : ℚ) * 84) ∧
    (runLoop P8run trivialOracles 8000
      (initFirstDay P8run trivialOracles 8000
        ((dropna series8).getD 0 ⟨0, 0, 0⟩))
      ((enumTail (dropna series8)).take 1)).trades = [] := by
  rw [days8_eval, S8e0, run8_loop]
  refine ⟨⟨rfl, ?_, ?_⟩, ?_⟩
  · norm_num [S8st0, P8run, findGrid, List.find?, List.range_succ]
  · norm_num [S8st0]
  · norm_num [S8st1]

/-! ## C9: the portfolio win-rate comparison -/

/-- The successful result dict of the ten-day run. -/
def result7 : BtResult :=
  { dates := [1, 2, 3, 4, 5, 6, 7, 8, 9, 10],
    total_equity := [100000, 94000, 115000, 115000, 115000, 115000, 115000,
      115000, 115000, 115000],
    invested_capital := [10000, 18000, -15000, -15000, -15000, -15000,
      -15000, -15000, -15000, -15000],
    profit_values := [0, -6000, 15000, 15000, 15000, 15000, 15000, 15000,
      15000, 15000],
    win_rate := 100,
    buy_count := 3,
    sell_count := 3,
    win_count := 3,
    grid_prices := [30, 55, 80, 105, 130],
    trades := [⟨1, "买入", 100, 100, 10000, 0⟩, ⟨2, "买入", 40, 100, 4000, 0⟩,
      ⟨2, "买入", 40, 100, 4000, 0⟩, ⟨3, "卖出", 110, 100, 11000, 7000⟩,
      ⟨3, "卖出", 110, 100, 11000, 2200⟩, ⟨3, "卖出", 110, 100, 11000, 2200⟩] }

theorem run7_result :
    backtest_single_etf P7run trivialOracles 100000 series7 =
      Except.ok result7 := by
  simp only [backtest_single_etf]
  rw [days7_eval]
  have h1 : days7.isEmpty = false := by rfl
  have h2 : ¬ days7.length < 10 := by norm_num [days7]
  simp only [h1, h2, Bool.false_eq_true, if_false, if_neg h2, run7_final]
  norm_num [S7fin, result7]

/-- C9 (counterexample): for the ten-day run's actual result dict, the
aggregator's win-rate formula compares each sell's `amount` with its own
`price * quantity` — the same product — so it reports 0, while the claim's
cost-based reading (sale amount above the trade's notional at cost, i.e.
positive realized profit) gives 100: the formula does not measure cost at
all. -/
theorem win_rate_not_cost_based_cex :
    backtest_single_etf P7run trivialOracles 100000 series7 =
      Except.ok result7 ∧
    portfolio_win_rate [result7] = 0 ∧
    claim_portfolio_win_rate [result7] = 100 := by
  refine ⟨run7_result, ?_, ?_⟩ <;>
  · simp only [portfolio_win_rate, claim_portfolio_win_rate, result7,
      List.flatMap_cons, List.flatMap_nil, List.append_nil, List.filter_cons,
      List.filter_nil, decide_eq_true_eq]
    simp
    try norm_num

/-- C9 (amended): every trade of every single-ETF run records
`amount = price * quantity` exactly, and on any list of results whose
trades satisfy that identity the portfolio win rate of app.py lines
2449-2452 counts no sell as a win and reports 0 — it is a comparison of
the sale amount with the sale notional, not with cost. -/
theorem portfolio_win_rate_is_zero :
    (∀ (s : SimState) (date : ℕ) (price : ℚ) (g : ℕ),
      (∀ t ∈ s.trades, t.amount = t.price * (t.quantity : ℚ)) →
      ∀ t ∈ (sellLevelStep date price s g).trades,
        t.amount = t.price * (t.quantity : ℚ)) ∧
    (∀ rs : List BtResult,
      (∀ r ∈ rs, ∀ t ∈ r.trades, t.amount = t.price * (t.quantity : ℚ)) →
      portfolio_win_rate rs = 0) := by
  constructor
  · intro s date price g h t ht
    simp only [sellLevelStep] at ht
    split_ifs at ht
    · dsimp only at ht
      rcases List.mem_append.mp ht with h' | h'
      · exact h t h'
      · rw [List.mem_singleton.mp h']
        exact mul_comm _ _
    · exact h t ht
    · exact h t ht
  · intro rs h
    simp only [portfolio_win_rate]
    have hwin : ((rs.flatMap (·.trades)).filter (fun t =>
        decide (t.ttype = "卖出" ∧ t.amount > t.price * (t.quantity : ℚ)))) =
        [] := by
      rw [List.filter_eq_nil]
      intro t ht
      obtain ⟨r, hr, htr⟩ := List.mem_flatMap.mp ht
      simp only [decide_eq_true_eq, not_and, not_lt]
      intro _
      rw [h r hr t htr]
    rw [hwin]
    simp only [List.length_nil, Nat.cast_zero, zero_div, zero_mul, ite_self]

/-- Witness for the C9 amended theorem: the ten-day run's result list has
win rate 0. -/
theorem portfolio_win_rate_is_zero_witness :
    (∀ r ∈ [result7], ∀ t ∈ r.trades,
      t.amount = t.price * (t.quantity : ℚ)) ∧
    portfolio_win_rate [result7] = 0 :=
  ⟨by norm_num [result7], portfolio_win_rate_is_zero.2 [result7]
    (by norm_num [result7])⟩

/-! ## C10: resets clear the buy-price attribution map -/

theorem dictGet_nil (k : ℕ) : dictGet [] k = 0 := rfl

theorem sellProfit_fallback_le (trades : List Trade) (price : ℚ) (sq : ℤ)
    (bp : ℚ) (hbp : ¬ bp > 0) :
    sellProfit bp trades price sq ≤ ((sq : ℚ) * price) * (1/5) := by
  unfold sellProfit
  rw [if_neg hbp]
  dsimp only
  split_ifs with h
  · exact le_refl _
  · linarith [not_lt.mp h]

/-- C10: every `setup_grid` call returns the grid state with an **empty**
level→last-buy-price mapping (app.py line 1953, `grid_buy_prices = {}`),
and on any state whose mapping is empty every newly recorded sell — the
first sell at any level after a reset — attributes profit through the
average-cost fallback, so its profit is capped at 20% of the sale amount,
even when that level was bought before the reset. -/
theorem reset_clears_buy_prices
    (P : BtParams) (O : Oracles) (idx : ℕ) (p cap : ℚ) (s : SimState)
    (date : ℕ) (price : ℚ) (g : ℕ) (hs : s.gridBuyPrices = []) :
    (setup_grid P O idx p cap).gridBuyPrices = [] ∧
    ∀ t ∈ (sellLevelStep date price s g).trades, t ∉ s.trades →
      t.profit ≤ t.amount * (1/5) := by
  refine ⟨rfl, ?_⟩
  intro t ht hnot
  simp only [sellLevelStep] at ht
  split_ifs at ht
  · dsimp only at ht
    rcases List.mem_append.mp ht with h' | h'
    · exact absurd h' hnot
    · rw [List.mem_singleton.mp h']
      dsimp only
      rw [hs, dictGet_nil]
      exact sellProfit_fallback_le _ _ _ _ (by norm_num)
  · exact absurd ht hnot
  · exact absurd ht hnot

/-- Witness for C10 at the initialized state of the ten-day run (whose
buy-price mapping is empty) and level 2. -/
theorem reset_clears_buy_prices_witness :
    S7st0.gridBuyPrices = [] ∧
    ((setup_grid P7run trivialOracles 0 100 50000).gridBuyPrices = [] ∧
      ∀ t ∈ (sellLevelStep 2 40 S7st0 2).trades, t ∉ S7st0.trades →
        t.profit ≤ t.amount * (1/5)) :=
  ⟨rfl, reset_clears_buy_prices P7run trivialOracles 0 100 50000 S7st0 2 40
    2 rfl⟩

/-- Witness for the C5 amended theorem at `n = 4`, price 2, bounds
`(8, 1)`, spacing `1/2`, geometric root 2. -/
theorem price_strictly_inside_levels_witness :
    (2 ≤ 4 ∧ (0 : ℚ) < 2 ∧ (0 : ℚ) < 1 ∧
      (2 : ℚ) ^ (4 - 1) = (widenBounds 2 8 1).1 / (widenBounds 2 8 1).2 ∧
      (0 : ℚ) < 2) ∧
    ((∀ gp, gp = gridPricesCore "arithmetic" 4 (widenBounds 2 8 1).1
        (widenBounds 2 8 1).2 (1/2) 2 2 →
      gp.getD 0 0 < 2 ∧ 2 < gp.getD (gp.length - 1) 0) ∧
    (∀ gp, gp = gridPricesCore "geometric" 4 (widenBounds 2 8 1).1
        (widenBounds 2 8 1).2 (1/2) 2 2 →
      gp.getD 0 0 < 2 ∧ 2 < gp.getD (gp.length - 1) 0) ∧
    (∀ gp, gp = fallbackGrid 2 4 →
      gp.getD 0 0 < 2 ∧ 2 < gp.getD (gp.length - 1) 0)) :=
  ⟨⟨by decide, by decide, by decide, by norm_num [widenBounds], by decide⟩,
   price_strictly_inside_levels 4 8 1 (1/2) 2 2 (by decide) (by decide)
     (by decide) (by norm_num [widenBounds]) (by decide)⟩

/-! ## C1: the portfolio aggregator raises before merging -/

theorem perSymbol_mapM_cases (P : BtParams) (O : Oracles) (cap : ℚ)
    (l : List (List RawDay)) :
    l.mapM (perSymbolResult P O cap) = Except.error "KeyError: trades" ∨
    ∃ rs : List BtResult, l.mapM (perSymbolResult P O cap) = Except.ok rs ∧
      rs.length = l.length := by
  induction l with
  | nil => exact Or.inr ⟨[], rfl, rfl⟩
  | cons a t ih =>
      rw [List.mapM_cons]
      cases hba : backtest_single_etf P O cap a with
      | error e =>
          left
          simp [perSymbolResult, hba, Bind.bind, Except.bind]
      | ok r =>
          rcases ih with h | ⟨rs, h, hlen⟩
          · left
            have h' : List.mapM.loop (perSymbolResult P O cap) t [] =
                Except.error "KeyError: trades" := h
            simp [perSymbolResult, hba, h', Bind.bind, Except.bind,
              Functor.map, Except.map]
          · right
            refine ⟨r :: rs, ?_, by simp [hlen]⟩
            have h' : List.mapM.loop (perSymbolResult P O cap) t [] =
                Except.ok rs := h
            simp [perSymbolResult, hba, h', Bind.bind, Except.bind,
              Functor.map, Except.map, pure, Except.pure]

theorem merge_raises {rs : List BtResult} {n : ℕ} (hrs : rs ≠ [])
    (hn : 0 < n) :
    backtest_portfolio_merge rs n =
      Except.error "KeyError: grid_trade_shares" := by
  have h1 : rs.isEmpty = false := by
    cases rs with
    | nil => exact absurd rfl hrs
    | cons a t => rfl
  simp [backtest_portfolio_merge, h1, hn, Bind.bind, Except.bind]

/-- C1 (code bug): for every nonempty symbol list and positive level
count, `backtest_portfolio` raises before any equity-curve merging takes
place: either a per-symbol run failed and line 2361 raises
`KeyError: trades`, or all runs succeeded and line 2372 reads the key
`grid_trade_shares`, which `backtest_single_etf` never returns, raising
`KeyError` — so the merged union-of-dates curve the claim describes is
never produced. -/
theorem portfolio_aggregation_always_raises
    (P : BtParams) (O : Oracles) (C : ℚ) (seriesList : List (List RawDay))
    (hne : seriesList ≠ []) (hn : 0 < P.grid_levels) :
    backtest_portfolio P O C seriesList =
        Except.error "KeyError: trades" ∨
      backtest_portfolio P O C seriesList =
        Except.error "KeyError: grid_trade_shares" := by
  unfold backtest_portfolio
  rcases perSymbol_mapM_cases P O (C / (seriesList.length : ℚ)) seriesList
    with h | ⟨rs, h, hlen⟩
  · left
    rw [h]
    rfl
  · right
    rw [h]
    have hrs : rs ≠ [] := by
      intro he
      rw [he] at hlen
      exact hne (List.length_eq_zero.mp hlen.symm)
    simpa [Except.bind] using merge_raises hrs hn

/-- Witness for C1 at two one-day series (both single runs fail the
10-observation check, so the per-symbol loop raises `KeyError: trades`). -/
theorem portfolio_aggregation_always_raises_witness :
    (([mkSeries [100], mkSeries [100]] : List (List RawDay)) ≠ [] ∧
      0 < P7run.grid_levels) ∧
    (backtest_portfolio P7run trivialOracles 100000
        [mkSeries [100], mkSeries [100]] =
        Except.error "KeyError: trades" ∨
      backtest_portfolio P7run trivialOracles 100000
        [mkSeries [100], mkSeries [100]] =
        Except.error "KeyError: grid_trade_shares") :=
  ⟨⟨by decide, by decide⟩, portfolio_aggregation_always_raises P7run
    trivialOracles 100000 [mkSeries [100], mkSeries [100]] (by decide)
    (by decide)⟩

/-! ## C3 (amended): cash and position never go negative -/

/-- The state-safety predicate of the amended C3: nonnegative cash and
share position, nonnegative per-level allocations, positive recorded
order quantities. -/
def SafeState (s : SimState) : Prop :=
  0 ≤ s.cash ∧ 0 ≤ s.position ∧ (∀ x ∈ s.gridTradeShares, 0 ≤ x) ∧
  ∀ t ∈ s.trades, 0 < t.quantity

theorem gridTradeSharesCalc_nonneg (n : ℕ) (rem : ℚ) (gp : List ℚ) :
    ∀ x ∈ gridTradeSharesCalc n rem gp, 0 ≤ x := by
  intro x hx
  obtain ⟨i, _, rfl⟩ := List.mem_map.mp hx
  exact le_trans (by norm_num) (le_max_left _ _)

theorem safe_appendEquityPoint {s : SimState} (hs : SafeState s) (C : ℚ)
    (date : ℕ) (price : ℚ) :
    SafeState (appendEquityPoint C date price s) :=
  ⟨hs.1, hs.2.1, hs.2.2.1, hs.2.2.2⟩

theorem safe_applyReset {s : SimState} (hs : SafeState s) (g : GridResult)
    (m : ℕ) (hg : ∀ x ∈ g.gridTradeShares, 0 ≤ x) :
    SafeState (applyReset s g m) :=
  ⟨hs.1, hs.2.1, hg, hs.2.2.2⟩

theorem safe_bumpAndReset (P : BtParams) (O : Oracles) (idx month : ℕ)
    (price : ℚ) {s : SimState} (hs : SafeState s) :
    SafeState (bumpAndReset P O idx month price s) := by
  have hs1 : SafeState { s with daysSinceReset := s.daysSinceReset + 1 } :=
    ⟨hs.1, hs.2.1, hs.2.2.1, hs.2.2.2⟩
  simp only [bumpAndReset]
  split_ifs
  · exact safe_applyReset hs1 _ month (gridTradeSharesCalc_nonneg _ _ _)
  · exact hs1

theorem safe_sellLevelStep {s : SimState} {price : ℚ} (hp : 0 < price)
    (hs : SafeState s) (date : ℕ) (g : ℕ) :
    SafeState (sellLevelStep date price s g) := by
  obtain ⟨hc, hpos, hsh, htr⟩ := hs
  simp only [sellLevelStep]
  split_ifs with h1 h2
  · refine ⟨?_, ?_, hsh, ?_⟩
    · have hq : (0 : ℤ) ≤ min s.position (s.gridTradeShares.getD g 0) :=
        le_of_lt h2
      have : (0 : ℚ) ≤
          ((min s.position (s.gridTradeShares.getD g 0) : ℤ) : ℚ) * price :=
        mul_nonneg (by exact_mod_cast hq) hp.le
      dsimp only
      linarith
    · dsimp only
      have := min_le_left s.position (s.gridTradeShares.getD g 0)
      omega
    · intro t ht
      dsimp only at ht
      rcases List.mem_append.mp ht with h' | h'
      · exact htr t h'
      · rw [List.mem_singleton.mp h']
        exact h2
  · exact ⟨hc, hpos, hsh, htr⟩
  · exact ⟨hc, hpos, hsh, htr⟩

theorem safe_buyLevelStep {s : SimState} {price : ℚ} (hp : 0 < price)
    (hs : SafeState s) (date : ℕ) (g : ℕ) :
    SafeState (buyLevelStep date price s g) := by
  obtain ⟨hc, hpos, hsh, htr⟩ := hs
  simp only [buyLevelStep]
  split_ifs with h1
  · obtain ⟨hcash, hq⟩ := h1
    refine ⟨?_, ?_, hsh, ?_⟩
    · dsimp only
      linarith [hcash]
    · dsimp only
      omega
    · intro t ht
      dsimp only at ht
      rcases List.mem_append.mp ht with h' | h'
      · exact htr t h'
      · rw [List.mem_singleton.mp h']
        exact hq
  · exact ⟨hc, hpos, hsh, htr⟩

theorem safe_tradeCrossings (date : ℕ) {price : ℚ} (hp : 0 < price)
    (n : ℕ) {s : SimState} (hs : SafeState s) :
    SafeState (tradeCrossings date price n s) := by
  simp only [tradeCrossings]
  split_ifs with h1 h2
  · have hfold : SafeState ((pyRange (s.prevGrid + 1)
        (findGrid s.gridPrices n price + 1)).foldl
        (sellLevelStep date price) s) :=
      foldl_invariant SafeState _ _ s hs
        (fun s' a _ hP => safe_sellLevelStep hp hP date a)
    exact ⟨hfold.1, hfold.2.1, hfold.2.2.1, hfold.2.2.2⟩
  · have hfold : SafeState ((pyRangeDown s.prevGrid
        (findGrid s.gridPrices n price)).foldl
        (buyLevelStep date price) s) :=
      foldl_invariant SafeState _ _ s hs
        (fun s' a _ hP => safe_buyLevelStep hp hP date a)
    exact ⟨hfold.1, hfold.2.1, hfold.2.2.1, hfold.2.2.2⟩
  · exact hs

theorem safe_dayStep (P : BtParams) (O : Oracles) (C : ℚ)
    (day : ℕ × Day) (hp : 0 < day.2.close) {s : SimState}
    (hs : SafeState s) : SafeState (dayStep P O C s day) :=
  safe_appendEquityPoint
    (safe_tradeCrossings day.2.date hp P.grid_levels
      (safe_bumpAndReset P O day.1 day.2.month day.2.close hs)) C
    day.2.date day.2.close

theorem pyInt_le_of_nonneg {q : ℚ} (h : 0 ≤ q) : ((pyInt q : ℤ) : ℚ) ≤ q := by
  unfold pyInt
  rw [if_pos h]
  exact_mod_cast Int.floor_le q

theorem pyInt_nonneg {q : ℚ} (h : 0 ≤ q) : 0 ≤ pyInt q := by
  unfold pyInt
  rw [if_pos h]
  exact_mod_cast Int.floor_nonneg.mpr h

theorem safe_initFirstDay (P : BtParams) (O : Oracles) {C : ℚ}
    (hC : 0 ≤ C) {d : Day} (hp : 0 < d.close) :
    SafeState (initFirstDay P O C d) := by
  unfold initFirstDay
  apply safe_appendEquityPoint _ C d.date d.close
  set inv := C - C * (1/2) with hinv
  have hinv0 : 0 ≤ inv := by rw [hinv]; linarith
  set g := setup_grid P O 0 d.close inv with hg
  set ratio := max (3/10) (min (9/10)
    (1 - (if g.gridPrices.length > 1 then
      max 0 (min 1 ((d.close - g.gridPrices.getD 0 0) /
        (g.gridPrices.getD (g.gridPrices.length - 1) 0 -
          g.gridPrices.getD 0 0)))
    else 0))) with hratio
  have hr1 : ratio ≤ 9/10 := by
    rw [hratio]
    apply max_le (by norm_num)
    exact min_le_left _ _
  have hr0 : 0 ≤ ratio := le_trans (by norm_num) (le_max_left _ _)
  have hiba : 0 ≤ inv * ratio := mul_nonneg hinv0 hr0
  have hibaC : inv * ratio ≤ C := by
    calc inv * ratio ≤ inv * (9/10) :=
          mul_le_mul_of_nonneg_left hr1 hinv0
      _ ≤ C := by rw [hinv]; linarith
  set q := pyInt (inv * ratio / d.close / 100) * 100 with hq
  have hq0 : 0 ≤ q := by
    rw [hq]
    have := pyInt_nonneg (q := inv * ratio / d.close / 100)
      (by positivity)
    omega
  have hcost : ((q : ℤ) : ℚ) * d.close ≤ inv * ratio := by
    rw [hq]
    push_cast
    have h1 : ((pyInt (inv * ratio / d.close / 100) : ℤ) : ℚ) ≤
        inv * ratio / d.close / 100 :=
      pyInt_le_of_nonneg (by positivity)
    calc ((pyInt (inv * ratio / d.close / 100) : ℤ) : ℚ) * 100 * d.close
        ≤ inv * ratio / d.close / 100 * 100 * d.close := by
          have hp100 : (0 : ℚ) < 100 * d.close := by positivity
          nlinarith
      _ = inv * ratio := by field_simp; ring
  split_ifs with hqpos
  · have hc' : (0 : ℚ) ≤ C - (q : ℚ) * d.close := by linarith [hcost, hibaC]
    have hp' : (0 : ℤ) ≤ 0 + q := by omega
    have ht' : ∀ t ∈ ([] : List Trade) ++
        [⟨d.date, "买入", d.close, q, (q : ℚ) * d.close, 0⟩],
        0 < t.quantity := by
      intro t ht
      simp only [List.nil_append, List.mem_singleton] at ht
      rw [ht]
      exact hqpos
    exact ⟨hc', hp', gridTradeSharesCalc_nonneg _ _ _, ht'⟩
  · exact ⟨hC, le_refl 0, gridTradeSharesCalc_nonneg _ _ _, by simp⟩

theorem safe_closeOut {s : SimState} (hs : SafeState s) (C : ℚ)
    (lastDate : ℕ) {fp : ℚ} (hfp : 0 ≤ fp) :
    SafeState (closeOut C lastDate fp s) := by
  obtain ⟨hc, hpos, hsh, htr⟩ := hs
  unfold closeOut
  split_ifs with h1
  · have hc' : (0 : ℚ) ≤ s.cash + (s.position : ℚ) * fp := by
      have : (0 : ℚ) ≤ (s.position : ℚ) * fp :=
        mul_nonneg (by exact_mod_cast hpos) hfp
      linarith
    have ht' : ∀ t ∈ s.trades ++
        [⟨lastDate, "卖出(平仓)", fp, s.position, (s.position : ℚ) * fp,
          sellProfit 0 s.trades fp s.position⟩], 0 < t.quantity := by
      intro t ht
      rcases List.mem_append.mp ht with h' | h'
      · exact htr t h'
      · rw [List.mem_singleton.mp h']
        exact h1
    exact ⟨hc', le_refl 0, hsh, ht'⟩
  · exact ⟨hc, hpos, hsh, htr⟩

theorem mem_enumTail {days : List Day} {x : ℕ × Day}
    (hx : x ∈ enumTail days) : x.2 ∈ days := by
  unfold enumTail at hx
  obtain ⟨y, hy, rfl⟩ := List.mem_map.mp hx
  have h2 : y.2 ∈ (days.drop 1).enum.map Prod.snd :=
    List.mem_map_of_mem Prod.snd hy
  rw [List.enum_map_snd] at h2
  exact List.drop_subset 1 days h2

/-- C3 (amended): for every run with nonnegative initial capital and
positive prices, at every day of the simulation — after initialization,
after any prefix of the daily loop, and after the forced close-out — cash
and the share position are nonnegative and every recorded order quantity
is positive.  The lot-multiple part of the claim is refuted by the
counterexample (a 6766-share buy). -/
theorem cash_position_never_negative
    (P : BtParams) (O : Oracles) (C : ℚ) (days : List Day)
    (hC : 0 ≤ C) (hne : days ≠ [])
    (hp : ∀ d ∈ days, 0 < d.close) :
    (∀ k, SafeState (runLoop P O C
      (initFirstDay P O C (days.getD 0 ⟨0, 0, 0⟩))
      ((enumTail days).take k))) ∧
    SafeState (finalState P O C days) := by
  have hd0 : days.getD 0 ⟨0, 0, 0⟩ ∈ days := by
    cases days with
    | nil => exact absurd rfl hne
    | cons a t => exact List.mem_cons_self a t
  have hinit : SafeState (initFirstDay P O C (days.getD 0 ⟨0, 0, 0⟩)) :=
    safe_initFirstDay P O hC (hp _ hd0)
  have hloop : ∀ l : List (ℕ × Day), (∀ x ∈ l, x ∈ enumTail days) →
      SafeState (runLoop P O C
        (initFirstDay P O C (days.getD 0 ⟨0, 0, 0⟩)) l) := by
    intro l hl
    exact foldl_invariant SafeState _ l _ hinit
      (fun s' a ha hP =>
        safe_dayStep P O C a (hp _ (mem_enumTail (hl a ha))) hP)
  constructor
  · intro k
    exact hloop _ (fun x hx => List.mem_of_mem_take hx)
  · unfold finalState
    apply safe_closeOut _ C _ ?_
    · exact hloop _ (fun x hx => hx)
    · cases hlast : days.getLast? with
      | none =>
          rw [List.getLast?_eq_none_iff] at hlast
          exact absurd hlast hne
      | some d =>
          have hmem : d ∈ days := by
            obtain ⟨hne', h2⟩ := List.mem_getLast?_eq_getLast hlast
            rw [h2]
            exact List.getLast_mem hne'
          simp only [hlast, Option.map_some', Option.getD_some]
          exact (hp d hmem).le

/-- Witness for the C3 amended theorem on the sixteen-day run. -/
theorem cash_position_never_negative_witness :
    ((0 : ℚ) ≤ 4880000 ∧ days3 ≠ [] ∧ ∀ d ∈ days3, 0 < d.close) ∧
    ((∀ k, SafeState (runLoop P3run trivialOracles 4880000
      (initFirstDay P3run trivialOracles 4880000 (days3.getD 0 ⟨0, 0, 0⟩))
      ((enumTail days3).take k))) ∧
    SafeState (finalState P3run trivialOracles 4880000 days3)) :=
  ⟨⟨by decide, by decide, by decide⟩,
   cash_position_never_negative P3run trivialOracles 4880000 days3
     (by decide) (by decide) (by decide)⟩

/-! ## C7 (amended): profit attribution, cap only in the fallback -/

theorem dictGet_pos_mem {d : List (ℕ × ℚ)} {k : ℕ} (h : dictGet d k > 0) :
    ∃ kv ∈ d, kv.2 = dictGet d k := by
  unfold dictGet at h ⊢
  cases hf : List.find? (fun kv => kv.1 = k) d with
  | none => rw [hf] at h; simp at h
  | some kv => exact ⟨kv, List.mem_of_find?_eq_some hf, rfl⟩

/-- The profit-attribution invariant of the amended C7: every recorded
level buy price is the price of some recorded buy trade, and every
recorded sell trade's profit either equals (sell price − some recorded
buy trade's price) × quantity or is capped at 20% of the sale amount. -/
def ProfitAttributed (s : SimState) : Prop :=
  (∀ kv ∈ s.gridBuyPrices, ∃ b ∈ s.trades,
    b.ttype = "买入" ∧ b.price = kv.2) ∧
  ∀ t ∈ s.trades, t.ttype = "卖出" ∨ t.ttype = "卖出(平仓)" →
    (∃ b ∈ s.trades, b.ttype = "买入" ∧
      t.profit = (t.price - b.price) * (t.quantity : ℚ)) ∨
    t.profit ≤ t.amount * (1/5)

theorem pa_appendEquityPoint {s : SimState} (hs : ProfitAttributed s)
    (C : ℚ) (date : ℕ) (price : ℚ) :
    ProfitAttributed (appendEquityPoint C date price s) :=
  ⟨hs.1, hs.2⟩

theorem pa_applyReset {s : SimState} (hs : ProfitAttributed s)
    (g : GridResult) (m : ℕ) (hg : g.gridBuyPrices = []) :
    ProfitAttributed (applyReset s g m) := by
  refine ⟨?_, hs.2⟩
  intro kv hkv
  have hkv' : kv ∈ g.gridBuyPrices := hkv
  rw [hg] at hkv'
  simp at hkv'

theorem pa_bumpAndReset (P : BtParams) (O : Oracles) (idx month : ℕ)
    (price : ℚ) {s : SimState} (hs : ProfitAttributed s) :
    ProfitAttributed (bumpAndReset P O idx month price s) := by
  have hs1 : ProfitAttributed { s with daysSinceReset := s.daysSinceReset + 1 } :=
    ⟨hs.1, hs.2⟩
  simp only [bumpAndReset]
  split_ifs
  · exact pa_applyReset hs1 _ month rfl
  · exact hs1

theorem pa_sellLevelStep {s : SimState} (hs : ProfitAttributed s)
    (date : ℕ) (price : ℚ) (g : ℕ) :
    ProfitAttributed (sellLevelStep date price s g) := by
  obtain ⟨hbp, htr⟩ := hs
  simp only [sellLevelStep]
  split_ifs with h1 h2
  · constructor
    · intro kv hkv
      obtain ⟨b, hb, hb1, hb2⟩ := hbp kv hkv
      exact ⟨b, List.mem_append_left _ hb, hb1, hb2⟩
    · intro t ht hsell
      rcases List.mem_append.mp ht with h' | h'
      · rcases htr t h' hsell with ⟨b, hb, hb1, hb2⟩ | hcap
        · exact Or.inl ⟨b, List.mem_append_left _ hb, hb1, hb2⟩
        · exact Or.inr hcap
      · rw [List.mem_singleton.mp h']
        by_cases hpos : dictGet s.gridBuyPrices g > 0
        · obtain ⟨kv, hkv, hkv2⟩ := dictGet_pos_mem hpos
          obtain ⟨b, hb, hb1, hb2⟩ := hbp kv hkv
          left
          refine ⟨b, List.mem_append_left _ hb, hb1, ?_⟩
          dsimp only
          rw [hb2, hkv2]
          unfold sellProfit
          rw [if_pos hpos]
        · right
          exact sellProfit_fallback_le s.trades price
            (min s.position (s.gridTradeShares.getD g 0)) _ hpos
  · exact ⟨hbp, htr⟩
  · exact ⟨hbp, htr⟩

theorem pa_buyLevelStep {s : SimState} (hs : ProfitAttributed s)
    (date : ℕ) (price : ℚ) (g : ℕ) :
    ProfitAttributed (buyLevelStep date price s g) := by
  obtain ⟨hbp, htr⟩ := hs
  simp only [buyLevelStep]
  split_ifs with h1
  · constructor
    · intro kv hkv
      have hkv' : kv ∈ (g - 1, price) :: s.gridBuyPrices := hkv
      rcases List.mem_cons.mp hkv' with h' | h'
      · subst h'
        exact ⟨_, List.mem_append_right _ (List.mem_singleton_self _),
          rfl, rfl⟩
      · obtain ⟨b, hb, hb1, hb2⟩ := hbp kv h'
        exact ⟨b, List.mem_append_left _ hb, hb1, hb2⟩
    · intro t ht hsell
      rcases List.mem_append.mp ht with h' | h'
      · rcases htr t h' hsell with ⟨b, hb, hb1, hb2⟩ | hcap
        · exact Or.inl ⟨b, List.mem_append_left _ hb, hb1, hb2⟩
        · exact Or.inr hcap
      · rw [List.mem_singleton.mp h'] at hsell
        simp at hsell
  · exact ⟨hbp, htr⟩

theorem pa_tradeCrossings (date : ℕ) (price : ℚ) (n : ℕ) {s : SimState}
    (hs : ProfitAttributed s) :
    ProfitAttributed (tradeCrossings date price n s) := by
  simp only [tradeCrossings]
  split_ifs with h1 h2
  · have hfold : ProfitAttributed ((pyRange (s.prevGrid + 1)
        (findGrid s.gridPrices n price + 1)).foldl
        (sellLevelStep date price) s) :=
      foldl_invariant ProfitAttributed _ _ s hs
        (fun s' a _ hP => pa_sellLevelStep hP date price a)
    exact ⟨hfold.1, hfold.2⟩
  · have hfold : ProfitAttributed ((pyRangeDown s.prevGrid
        (findGrid s.gridPrices n price)).foldl
        (buyLevelStep date price) s) :=
      foldl_invariant ProfitAttributed _ _ s hs
        (fun s' a _ hP => pa_buyLevelStep hP date price a)
    exact ⟨hfold.1, hfold.2⟩
  · exact hs

theorem pa_dayStep (P : BtParams) (O : Oracles) (C : ℚ) (day : ℕ × Day)
    {s : SimState} (hs : ProfitAttributed s) :
    ProfitAttributed (dayStep P O C s day) :=
  pa_appendEquityPoint
    (pa_tradeCrossings day.2.date day.2.close P.grid_levels
      (pa_bumpAndReset P O day.1 day.2.month day.2.close hs)) C
    day.2.date day.2.close

theorem pa_initFirstDay (P : BtParams) (O : Oracles) (C : ℚ) (d : Day) :
    ProfitAttributed (initFirstDay P O C d) := by
  unfold initFirstDay
  apply pa_appendEquityPoint _ C d.date d.close
  split_ifs <;>
    refine ⟨fun kv hkv => absurd (show kv ∈ ([] : List (ℕ × ℚ)) from hkv)
      (List.not_mem_nil kv), fun t ht hsell => ?_⟩ <;>
    first
      | exact absurd (show t ∈ ([] : List Trade) from ht) (List.not_mem_nil t)
      | (rcases List.mem_append.mp ht with h' | h'
         exacts [absurd h' (List.not_mem_nil t), by
           rw [List.mem_singleton.mp h'] at hsell; simp at hsell])

theorem pa_closeOut {s : SimState} (hs : ProfitAttributed s) (C : ℚ)
    (lastDate : ℕ) (fp : ℚ) :
    ProfitAttributed (closeOut C lastDate fp s) := by
  obtain ⟨hbp, htr⟩ := hs
  unfold closeOut
  split_ifs with h1
  · constructor
    · intro kv hkv
      obtain ⟨b, hb, hb1, hb2⟩ := hbp kv hkv
      exact ⟨b, List.mem_append_left _ hb, hb1, hb2⟩
    · intro t ht hsell
      rcases List.mem_append.mp ht with h' | h'
      · rcases htr t h' hsell with ⟨b, hb, hb1, hb2⟩ | hcap
        · exact Or.inl ⟨b, List.mem_append_left _ hb, hb1, hb2⟩
        · exact Or.inr hcap
      · rw [List.mem_singleton.mp h']
        right
        exact sellProfit_fallback_le s.trades fp s.position 0 (by norm_num)
  · exact ⟨hbp, htr⟩

/-- C7 (amended): in every run, every recorded sell trade (including the
forced close-out) has its realized profit either exactly equal to
(sell price − recorded buy price) × quantity for some recorded buy
trade — the matched case, which is **not** capped — or bounded by 20% of
that trade's sale amount (the average-cost fallback, which is capped).
The claim's unconditional 20% cap is refuted by the counterexample. -/
theorem sell_profit_matched_or_capped
    (P : BtParams) (O : Oracles) (C : ℚ) (days : List Day) :
    ∀ t ∈ (finalState P O C days).trades,
      t.ttype = "卖出" ∨ t.ttype = "卖出(平仓)" →
      (∃ b ∈ (finalState P O C days).trades, b.ttype = "买入" ∧
        t.profit = (t.price - b.price) * (t.quantity : ℚ)) ∨
      t.profit ≤ t.amount * (1/5) := by
  have hinit : ProfitAttributed (initFirstDay P O C (days.getD 0 ⟨0, 0, 0⟩)) :=
    pa_initFirstDay P O C _
  have hloop : ProfitAttributed (runLoop P O C
      (initFirstDay P O C (days.getD 0 ⟨0, 0, 0⟩)) (enumTail days)) :=
    foldl_invariant ProfitAttributed _ _ _ hinit
      (fun s' a _ hP => pa_dayStep P O C a hP)
  have h := pa_closeOut hloop C ((days.getLast?.map (·.date)).getD 0)
    ((days.getLast?.map (·.close)).getD 0)
  exact h.2

/-- Witness for the C7 amended theorem: the uncapped matched sell of the
ten-day run, whose profit 7000 equals (110 − 40) × 100 for the recorded
buy at 40. -/
theorem sell_profit_matched_or_capped_witness :
    ((⟨3, "卖出", 110, 100, 11000, 7000⟩ : Trade) ∈
        (finalState P7run trivialOracles 100000 days7).trades ∧
      ((⟨3, "卖出", 110, 100, 11000, 7000⟩ : Trade).ttype = "卖出" ∨
        (⟨3, "卖出", 110, 100, 11000, 7000⟩ : Trade).ttype = "卖出(平仓)")) ∧
    ((∃ b ∈ (finalState P7run trivialOracles 100000 days7).trades,
        b.ttype = "买入" ∧
        (⟨3, "卖出", 110, 100, 11000, 7000⟩ : Trade).profit =
          ((⟨3, "卖出", 110, 100, 11000, 7000⟩ : Trade).price - b.price) *
            (((⟨3, "卖出", 110, 100, 11000, 7000⟩ : Trade).quantity : ℤ) : ℚ)) ∨
      (⟨3, "卖出", 110, 100, 11000, 7000⟩ : Trade).profit ≤
        (⟨3, "卖出", 110, 100, 11000, 7000⟩ : Trade).amount * (1/5)) := by
  have hmem : (⟨3, "卖出", 110, 100, 11000, 7000⟩ : Trade) ∈
      (finalState P7run trivialOracles 100000 days7).trades := by
    rw [run7_final]
    exact List.mem_cons_of_mem _ (List.mem_cons_of_mem _
      (List.mem_cons_of_mem _ (List.mem_cons_self _ _)))
  exact ⟨⟨hmem, Or.inl rfl⟩,
    sell_profit_matched_or_capped P7run trivialOracles 100000 days7 _ hmem
      (Or.inl rfl)⟩

/-! ## C8 (amended): the reduced buy is floored but guarded by cash -/

/-- C8 (amended): on a downward crossing where cash is insufficient for
the planned buy (app.py lines 2141-2148), the reduced quantity is at
least `max(planned // 3, 100)` (and positive) and at most the plan; but
the order then executes only when cash covers the **reduced** cost — when
it does not (line 2151's guard), no buy is executed at all, refuting the
claim that a buy is always still executed. -/
theorem scaled_buy_floor_and_guard
    (s : SimState) (date : ℕ) (price : ℚ) (g : ℕ) (planned : ℤ)
    (hplanned : planned = s.gridTradeShares.getD (g - 1) 0)
    (hins : s.cash < (planned : ℚ) * price) (hplan : 100 ≤ planned) :
    (max (pyFloorDiv planned 3) 100 ≤ adjustBuyQuantity s.cash price planned ∧
      adjustBuyQuantity s.cash price planned ≤ planned ∧
      0 < adjustBuyQuantity s.cash price planned) ∧
    (s.cash < (adjustBuyQuantity s.cash price planned : ℚ) * price →
      buyLevelStep date price s g = s) ∧
    ((adjustBuyQuantity s.cash price planned : ℚ) * price ≤ s.cash →
      (buyLevelStep date price s g).trades = s.trades ++
        [⟨date, "买入", price, adjustBuyQuantity s.cash price planned,
          (adjustBuyQuantity s.cash price planned : ℚ) * price, 0⟩]) := by
  have hfdiv : pyFloorDiv planned 3 ≤ planned := by
    unfold pyFloorDiv
    rw [Int.fdiv_eq_ediv _ (by norm_num)]
    omega
  have hq : adjustBuyQuantity s.cash price planned =
      max (max (pyFloorDiv planned 3) 100)
        (min (pyInt (s.cash / price / 100) * 100) planned) := by
    unfold adjustBuyQuantity
    rw [if_pos hins]
  have h1 : max (pyFloorDiv planned 3) 100 ≤
      adjustBuyQuantity s.cash price planned := by
    rw [hq]
    exact le_max_left _ _
  have h2 : adjustBuyQuantity s.cash price planned ≤ planned := by
    rw [hq]
    exact max_le (max_le hfdiv hplan) (min_le_right _ _)
  have h3 : 0 < adjustBuyQuantity s.cash price planned :=
    lt_of_lt_of_le (by omega) h1
  refine ⟨⟨h1, h2, h3⟩, ?_, ?_⟩
  · intro hlt
    simp only [buyLevelStep, ← hplanned]
    rw [if_neg (fun hcon => absurd hcon.1 (not_le.mpr hlt))]
  · intro hge
    simp only [buyLevelStep, ← hplanned]
    rw [if_pos ⟨hge, h3⟩]

/-- Witness for the C8 amended theorem at the flat-84 run's downward
crossing: planned 100 shares at price 84 against cash 8000. -/
theorem scaled_buy_floor_and_guard_witness :
    ((100 : ℤ) = S8st0.gridTradeShares.getD (4 - 1) 0 ∧
      S8st0.cash < ((100 : ℤ) : ℚ) * 84 ∧ (100 : ℤ) ≤ 100) ∧
    ((max (pyFloorDiv 100 3) 100 ≤ adjustBuyQuantity S8st0.cash 84 100 ∧
        adjustBuyQuantity S8st0.cash 84 100 ≤ 100 ∧
        0 < adjustBuyQuantity S8st0.cash 84 100) ∧
      (S8st0.cash < (adjustBuyQuantity S8st0.cash 84 100 : ℚ) * 84 →
        buyLevelStep 2 84 S8st0 4 = S8st0) ∧
      ((adjustBuyQuantity S8st0.cash 84 100 : ℚ) * 84 ≤ S8st0.cash →
        (buyLevelStep 2 84 S8st0 4).trades = S8st0.trades ++
          [⟨2, "买入", 84, adjustBuyQuantity S8st0.cash 84 100,
            (adjustBuyQuantity S8st0.cash 84 100 : ℚ) * 84, 0⟩])) :=
  ⟨⟨by decide, by norm_num [S8st0], by decide⟩,
    scaled_buy_floor_and_guard S8st0 2 84 4 100 (by decide)
      (by norm_num [S8st0]) (by decide)⟩

end Dajitui
